import Mathlib

/-!
Shallow embedding of the record engine of `rd` (a record-and-replay debugger
for Linux), covering the parts of `src/session/task/record_task.rs`,
`src/session/record_session.rs` and `src/file_monitor.rs` that the verified
claims are about: signal stashing, the pending-event stack, signal
disposition resolution, the sigmask cache, syscall-restart detection, the
memory-recording family, seccomp-trap handling, write-offset retrieval and
the mirrored kernel state updated on syscall exit.

Machine integers are modelled as `Nat`/`Int` with explicit wrapping where
the code relies on it.  Tracee-side state that the code merely reads
(ptrace results, `/proc` files, tracee memory) is passed in as explicit
environment values.  Definitions translated from files that are not part
of `src/` (utility helpers, syscall-number tables, kernel constants) say so
in their doc comments and are modelled from the specification's words.
-/

namespace Rd

/-- Architecture tag of a tracee (`kernel_abi::SupportedArch`). -/
inductive SupportedArch
  | x86
  | x64
deriving DecidableEq

/-- Determinism flag of a signal occurrence (`event::SignalDeterministic`). -/
inductive SignalDeterministic
  | NondeterministicSig
  | DeterministicSig
deriving DecidableEq

/-- Application-level disposition of a signal (`record_task::SignalDisposition`). -/
inductive SignalDisposition
  | SignalDefault
  | SignalIgnore
  | SignalHandler
deriving DecidableEq

/-- Resolved disposition of a signal (`event::SignalResolvedDisposition`). -/
inductive SignalResolvedDisposition
  | DispositionFatal
  | DispositionUserHandler
  | DispositionIgnored
deriving DecidableEq

/-- Modelled from the spec: `util::SignalAction`, the classification of a
signal's default action, is not under `src/`; these are the standard Linux
default-action classes the spec refers to ("dump-core or terminate"). -/
inductive SignalAction
  | SigActTerminate
  | SigActDumpCore
  | SigActIgnore
  | SigActStop
  | SigActContinue
deriving DecidableEq

/-- Lowest realtime signal number (`kernel_supplement::__SIGRTMIN`). -/
def SIGRTMIN_VAL : Int := 32

/-- Signal numbers used by the embedded code (`sig` module / libc). -/
def SIGKILL_VAL : Int := 9

def SIGUSR1_VAL : Int := 10

def SIGSEGV_VAL : Int := 11

def SIGCHLD_VAL : Int := 17

def SIGSTOP_VAL : Int := 19

def SIGSYS_VAL : Int := 31

/-- The fields of `libc::siginfo_t` that the embedded code reads or writes:
the common `si_signo`/`si_errno`/`si_code` triple, the `_sigsys` union arm
filled in by `handle_seccomp_trap`, and the `sival_int` used to mark
synthetic SIGCHLDs. -/
structure SigInfo where
  si_signo : Int := 0
  si_errno : Int := 0
  si_code : Int := 0
  sigsys_arch : Nat := 0
  sigsys_syscall : Int := 0
  sigsys_call_addr : Nat := 0
  sival_int : Int := 0
deriving DecidableEq

/-- One entry of the stashed-signal queue (`record_task::StashedSignal`). -/
structure StashedSignal where
  siginfo : SigInfo
  deterministic : SignalDeterministic
deriving DecidableEq

instance : Inhabited StashedSignal := ⟨⟨{}, SignalDeterministic.NondeterministicSig⟩⟩

/-- The register fields the embedded code touches (`registers::Registers`):
syscall number and original syscall number, the six syscall argument
registers, the syscall result and the instruction pointer.  Argument
registers are stored as the widened `usize` values the accessors return. -/
structure Registers where
  arch : SupportedArch := SupportedArch.x64
  original_syscallno : Int := 0
  syscallno : Int := 0
  arg1 : Nat := 0
  arg2 : Nat := 0
  arg3 : Nat := 0
  arg4 : Nat := 0
  arg5 : Nat := 0
  arg6 : Nat := 0
  syscall_result : Nat := 0
  ip : Nat := 0
deriving DecidableEq

/-- Sub-state of a syscall event (`event::SyscallState`). -/
inductive SyscallState
  | NoSyscall
  | EnteringSyscallPtrace
  | EnteringSyscall
  | ProcessingSyscall
  | ExitingSyscall
deriving DecidableEq

/-- Payload of a syscall / syscall-interruption event
(`event::SyscallEventData`): the syscall number, its architecture, the
entry/processing/exit sub-state, the registers saved at entry, the
failed-during-preparation flag and the desched record pointer. -/
structure SyscallEventData where
  number : Int
  arch : SupportedArch
  state : SyscallState := SyscallState.NoSyscall
  regs : Registers := {}
  failed_during_preparation : Bool := false
  desched_rec : Nat := 0
deriving DecidableEq

/-- Tags of the event union (`event::EventType`). -/
inductive EventType
  | EvSentinel
  | EvNoop
  | EvDesched
  | EvSeccompTrap
  | EvSignal
  | EvSignalDelivery
  | EvSignalHandler
  | EvSyscall
  | EvSyscallInterruption
  | EvSyscallbufFlush
  | EvSyscallbufReset
  | EvExit
deriving DecidableEq

/-- The event union (`event::Event`): a tagged record with per-kind payload. -/
inductive Event
  | sentinel
  | noop
  | desched (rec : Nat)
  | seccomp_trap
  | signal_ev (si : SigInfo) (det : SignalDeterministic)
  | signal_delivery (si : SigInfo) (det : SignalDeterministic)
  | signal_handler (si : SigInfo) (det : SignalDeterministic)
  | syscall_ev (d : SyscallEventData)
  | syscall_interruption (d : SyscallEventData)
  | syscallbuf_flush
  | syscallbuf_reset
  | exit_ev
deriving DecidableEq

namespace Event

/-- Tag of an event (`Event::event_type`). -/
def event_type : Event → EventType
  | sentinel => EventType.EvSentinel
  | noop => EventType.EvNoop
  | desched _ => EventType.EvDesched
  | seccomp_trap => EventType.EvSeccompTrap
  | signal_ev _ _ => EventType.EvSignal
  | signal_delivery _ _ => EventType.EvSignalDelivery
  | signal_handler _ _ => EventType.EvSignalHandler
  | syscall_ev _ => EventType.EvSyscall
  | syscall_interruption _ => EventType.EvSyscallInterruption
  | syscallbuf_flush => EventType.EvSyscallbufFlush
  | syscallbuf_reset => EventType.EvSyscallbufReset
  | exit_ev => EventType.EvExit

/-- True for syscall and syscall-interruption events
(`Event::is_syscall_event`). -/
def is_syscall_event (e : Event) : Bool :=
  e.event_type == EventType.EvSyscall || e.event_type == EventType.EvSyscallInterruption

/-- Payload of a syscall or syscall-interruption event (`Event::syscall`). -/
def syscallData? : Event → Option SyscallEventData
  | syscall_ev d => some d
  | syscall_interruption d => some d
  | _ => none

end Event

/-- One entry of the kernel-mirrored signal-handler table
(`record_task::Sighandler`); the raw sigaction bytes are not modelled. -/
structure Sighandler where
  k_sa_handler : Nat := 0
  resethand : Bool := false
  takes_siginfo : Bool := false
deriving DecidableEq

/-- Disposition encoded by the handler pointer (`Sighandler::disposition`):
0 is SIG_DFL, 1 is SIG_IGN, anything else a user handler. -/
def Sighandler.disposition (h : Sighandler) : SignalDisposition :=
  match h.k_sa_handler with
  | 0 => SignalDisposition.SignalDefault
  | 1 => SignalDisposition.SignalIgnore
  | _ => SignalDisposition.SignalHandler

/-- A raw-data record written to the trace by `TraceWriter::write_raw`:
recorded tid, the bytes, and the tracee address they came from. -/
structure RawRecord where
  tid : Int
  data : List Nat
  addr : Nat
deriving DecidableEq

/-- The fields of `RecordTask` (and of its thread group) that the embedded
operations read or write.  The pending-event stack is a list whose *front*
is the bottom of the stack (the source pushes and pops at the back of a
`VecDeque`).  `trace_raw` collects the raw-data records written through the
trace writer, `trace_events` the tags of the frames written, and
`written_regs` logs every register set pushed to the tracee via
`set_regs`. -/
structure RecordTask where
  pending_events : List Event := []
  stashed_signals : List StashedSignal := []
  stashed_signals_blocking_more_signals : Bool := false
  stashed_group_stop : Bool := false
  break_at_syscallbuf_traced_syscalls : Bool := false
  break_at_syscallbuf_untraced_syscalls : Bool := false
  break_at_syscallbuf_final_instruction : Bool := false
  blocked_sigs : Nat := 0
  blocked_sigs_dirty : Bool := true
  sighandlers : Int → Sighandler := fun _ => {}
  received_sigframe_sigsegv : Bool := false
  robust_futex_list : Nat := 0
  robust_futex_list_len : Nat := 0
  tid_futex : Nat := 0
  regs : Registers := {}
  pending_siginfo : SigInfo := {}
  stop_sig : Int := 0
  rec_tid : Int := 0
  syscallbuf_child : Nat := 0
  flushed_syscallbuf : Bool := false
  delay_syscallbuf_reset_for_desched : Bool := false
  delay_syscallbuf_reset_for_seccomp_trap : Bool := false
  trace_raw : List RawRecord := []
  trace_events : List EventType := []
  written_regs : List Registers := []

namespace RecordTask

/-- Event at the top of the pending-event stack (`RecordTask::ev`); the
source unwraps and panics on an empty stack, which by the stack invariant
never happens, so the sentinel is used as the (unreachable) default. -/
def ev (t : RecordTask) : Event :=
  t.pending_events.getLast?.getD Event.sentinel

/-- True when at least one signal is stashed
(`RecordTask::has_any_stashed_sig`). -/
def has_any_stashed_sig (t : RecordTask) : Bool :=
  !t.stashed_signals.isEmpty

/-- RecordTask::stash_sig (record_task.rs:1241).  Stashes the current
stop signal (`maybe_stop_sig`) with the current siginfo
(`get_siginfo`).  Non-realtime signals coalesce: when an entry with the
same signal number is already queued the new stash is dropped.  The
`deterministic` argument stands for `util::is_deterministic_signal(self)`,
whose source is not under `src/` (modelled from the spec's determinism
classification of the current stop). -/
def stash_sig (t : RecordTask) (deterministic : SignalDeterministic) : RecordTask :=
  let sig := t.stop_sig
  if decide (sig < SIGRTMIN_VAL) &&
      t.stashed_signals.any (fun it => it.siginfo.si_signo == sig) then
    t
  else
    { t with
      stashed_signals := t.stashed_signals ++ [⟨t.pending_siginfo, deterministic⟩],
      stashed_signals_blocking_more_signals := true,
      break_at_syscallbuf_final_instruction := true,
      break_at_syscallbuf_traced_syscalls := true,
      break_at_syscallbuf_untraced_syscalls := true }

end RecordTask

/-- The coalescing loop of `RecordTask::stash_synthetic_sig`
(record_task.rs:1291-1309), acting on the queue: at the first entry whose
signal number matches, either remove it (a deterministic stash supersedes a
nondeterministic entry) and stop scanning, or report that the new stash is
to be discarded (`none`). -/
def stashCoalesce (si : SigInfo) (deterministic : SignalDeterministic) :
    List StashedSignal → Option (List StashedSignal)
  | [] => some []
  | it :: rest =>
    if it.siginfo.si_signo == si.si_signo then
      if deterministic == SignalDeterministic.DeterministicSig &&
          it.deterministic == SignalDeterministic.NondeterministicSig then
        some rest
      else
        none
    else
      (stashCoalesce si deterministic rest).map (it :: ·)

namespace RecordTask

/-- RecordTask::stash_synthetic_sig (record_task.rs:1277).  For a
non-realtime signal the queue is first coalesced; if the new stash
survives it is inserted at the front of the queue. -/
def stash_synthetic_sig (t : RecordTask) (si : SigInfo)
    (deterministic : SignalDeterministic) : RecordTask :=
  let maybe_q :=
    if decide (si.si_signo < SIGRTMIN_VAL) then
      stashCoalesce si deterministic t.stashed_signals
    else
      some t.stashed_signals
  match maybe_q with
  | none => t
  | some q =>
    { t with
      stashed_signals := ⟨si, deterministic⟩ :: q,
      stashed_signals_blocking_more_signals := true,
      break_at_syscallbuf_final_instruction := true,
      break_at_syscallbuf_traced_syscalls := true,
      break_at_syscallbuf_untraced_syscalls := true }

/-- RecordTask::pop_stash_sig (record_task.rs:1361).  The source removes
the queue entry that is pointer-identical to the argument; in the
embedding the entry is identified by its position.  `none` models the
fatal assertion when no such entry exists. -/
def pop_stash_sig (t : RecordTask) (pos : Nat) : Option RecordTask :=
  if pos < t.stashed_signals.length then
    some { t with stashed_signals := t.stashed_signals.eraseIdx pos }
  else
    none

/-- RecordTask::stashed_signal_processed (record_task.rs:1371): every
break-at flag and the blocking flag are set to whether any stashed signal
remains. -/
def stashed_signal_processed (t : RecordTask) : RecordTask :=
  let has := t.has_any_stashed_sig
  { t with
    break_at_syscallbuf_final_instruction := has,
    break_at_syscallbuf_traced_syscalls := has,
    break_at_syscallbuf_untraced_syscalls := has,
    stashed_signals_blocking_more_signals := has }

/-- RecordTask::push_event (record_task.rs:1716): pushes onto the top
(back) of the pending-event stack. -/
def push_event (t : RecordTask) (ev : Event) : RecordTask :=
  { t with pending_events := t.pending_events ++ [ev] }

/-- RecordTask::pop_event (record_task.rs:1725): pops the top of the
pending-event stack and asserts its tag matches.  `none` models both the
panic on an empty stack and the fatal assertion on a tag mismatch. -/
def pop_event (t : RecordTask) (expected_type : EventType) : Option RecordTask :=
  (t.pending_events.getLast?).bind fun e =>
    if e.event_type == expected_type then
      some { t with pending_events := t.pending_events.dropLast }
    else
      none

/-- RecordTask::pop_noop (record_task.rs:1730). -/
def pop_noop (t : RecordTask) : Option RecordTask :=
  t.pop_event EventType.EvNoop

/-- RecordTask::pop_desched (record_task.rs:1734). -/
def pop_desched (t : RecordTask) : Option RecordTask :=
  t.pop_event EventType.EvDesched

/-- RecordTask::pop_seccomp_trap (record_task.rs:1738). -/
def pop_seccomp_trap (t : RecordTask) : Option RecordTask :=
  t.pop_event EventType.EvSeccompTrap

/-- RecordTask::pop_signal_delivery (record_task.rs:1742). -/
def pop_signal_delivery (t : RecordTask) : Option RecordTask :=
  t.pop_event EventType.EvSignalDelivery

/-- RecordTask::pop_signal_handler (record_task.rs:1746). -/
def pop_signal_handler (t : RecordTask) : Option RecordTask :=
  t.pop_event EventType.EvSignalHandler

/-- RecordTask::pop_syscall (record_task.rs:1750). -/
def pop_syscall (t : RecordTask) : Option RecordTask :=
  t.pop_event EventType.EvSyscall

/-- RecordTask::pop_syscall_interruption (record_task.rs:1754). -/
def pop_syscall_interruption (t : RecordTask) : Option RecordTask :=
  t.pop_event EventType.EvSyscallInterruption

/-- RecordTask::push_syscall_event (record_task.rs:1720); the architecture
returned by `detect_syscall_arch` (which inspects the tracee and is not
under `src/`) is passed in. -/
def push_syscall_event (t : RecordTask) (no : Int) (arch : SupportedArch) : RecordTask :=
  t.push_event (Event.syscall_ev { number := no, arch := arch })

end RecordTask

/-- The part of `RecordTask::new` (record_task.rs:735-804) the embedding
tracks: the bookkeeping fields are initialized to the values the source
gives them, and a sentinel event is pushed as the bottom of the
pending-event stack. -/
def RecordTask.new (regs : Registers) (rec_tid : Int)
    (sighandlers : Int → Sighandler) : RecordTask :=
  let rt : RecordTask :=
    { pending_events := []
      stashed_signals := []
      stashed_signals_blocking_more_signals := false
      stashed_group_stop := false
      break_at_syscallbuf_traced_syscalls := false
      break_at_syscallbuf_untraced_syscalls := false
      break_at_syscallbuf_final_instruction := false
      blocked_sigs := 0
      blocked_sigs_dirty := true
      sighandlers := sighandlers
      received_sigframe_sigsegv := false
      robust_futex_list := 0
      robust_futex_list_len := 0
      tid_futex := 0
      regs := regs
      pending_siginfo := {}
      stop_sig := 0
      rec_tid := rec_tid
      syscallbuf_child := 0
      flushed_syscallbuf := false
      delay_syscallbuf_reset_for_desched := false
      delay_syscallbuf_reset_for_seccomp_trap := false
      trace_raw := []
      trace_events := []
      written_regs := [] }
  rt.push_event Event.sentinel

namespace RecordTask

/-- RecordTask::at_may_restart_syscall (record_task.rs:1476): the top of
the stack is a syscall interruption, or it is a signal delivery directly
above a syscall interruption (only inspected when the stack is more than
two deep). -/
def at_may_restart_syscall (t : RecordTask) : Bool :=
  let depth := t.pending_events.length
  let prev_ev : Option Event :=
    if depth > 2 then t.pending_events[depth - 2]? else none
  t.ev.event_type == EventType.EvSyscallInterruption ||
    (t.ev.event_type == EventType.EvSignalDelivery &&
      (match prev_ev with
       | some e => e.event_type == EventType.EvSyscallInterruption
       | none => false))

end RecordTask

/-- What the tracer can observe of the tracee's kernel-side signal mask:
the result of a PTRACE_GETSIGMASK call (`none` when the call fails) and
the parsed `SigBlk` field of `/proc/<tid>/status`. -/
structure SigmaskEnv where
  ptrace_getsigmask : Option Nat
  proc_sigblk : Nat

namespace RecordTask

/-- RecordTask::read_sigmask_from_process (record_task.rs:1980): unless
the task is at a possibly-restarting syscall, try PTRACE_GETSIGMASK and
return its value on success; otherwise (restartable syscall, or ptrace
failure) parse SigBlk from `/proc/<tid>/status`. -/
def read_sigmask_from_process (t : RecordTask) (env : SigmaskEnv) : Nat :=
  if !t.at_may_restart_syscall then
    match env.ptrace_getsigmask with
    | some mask => mask
    | none => env.proc_sigblk
  else
    env.proc_sigblk

/-- RecordTask::get_sigmask (record_task.rs:1970): return the cached mask,
refreshing it first when the dirty flag is set. -/
def get_sigmask (t : RecordTask) (env : SigmaskEnv) : Nat × RecordTask :=
  if t.blocked_sigs_dirty then
    let m := t.read_sigmask_from_process env
    (m, { t with blocked_sigs := m, blocked_sigs_dirty := false })
  else
    (t.blocked_sigs, t)

/-- RecordTask::invalidate_sigmask (record_task.rs:1126). -/
def invalidate_sigmask (t : RecordTask) : RecordTask :=
  { t with blocked_sigs_dirty := true }

end RecordTask

/-- record_task.rs:2199 `is_unstoppable_signal`: SIGSTOP and SIGKILL. -/
def is_unstoppable_signal (sig : Int) : Bool :=
  sig == SIGSTOP_VAL || sig == SIGKILL_VAL

/-- Modelled from the spec: `util::default_action` is not under `src/`.
The standard Linux default dispositions (signal(7)): SIGCHLD, SIGURG and
SIGWINCH are ignored; SIGCONT continues; SIGSTOP, SIGTSTP, SIGTTIN and
SIGTTOU stop; SIGQUIT, SIGILL, SIGTRAP, SIGABRT, SIGBUS, SIGFPE, SIGSEGV,
SIGXCPU, SIGXFSZ and SIGSYS dump core; everything else (including all
realtime signals) terminates. -/
def default_action (sig : Int) : SignalAction :=
  if sig == 17 || sig == 23 || sig == 28 then SignalAction.SigActIgnore
  else if sig == 18 then SignalAction.SigActContinue
  else if sig == 19 || sig == 20 || sig == 21 || sig == 22 then SignalAction.SigActStop
  else if sig == 3 || sig == 4 || sig == 5 || sig == 6 || sig == 7 || sig == 8 ||
      sig == 11 || sig == 24 || sig == 25 || sig == 31 then SignalAction.SigActDumpCore
  else SignalAction.SigActTerminate

namespace RecordTask

/-- RecordTask::signal_has_user_handler (record_task.rs:1047). -/
def signal_has_user_handler (t : RecordTask) (sig : Int) : Bool :=
  (t.sighandlers sig).disposition == SignalDisposition.SignalHandler

/-- RecordTask::is_sig_blocked (record_task.rs:1071): false for the
unstoppable signals, otherwise bit `sig - 1` of the (possibly refreshed)
sigmask. -/
def is_sig_blocked (t : RecordTask) (env : SigmaskEnv) (sig : Int) : Bool :=
  if is_unstoppable_signal sig then
    false
  else
    let sig_bit := sig - 1
    ((t.get_sigmask env).1 >>> sig_bit.toNat) &&& 1 != 0

/-- RecordTask::is_sig_ignored (record_task.rs:1082): false for the
unstoppable signals; otherwise SIG_IGN, or SIG_DFL whose default action is
to ignore. -/
def is_sig_ignored (t : RecordTask) (sig : Int) : Bool :=
  if is_unstoppable_signal sig then
    false
  else
    match (t.sighandlers sig).disposition with
    | SignalDisposition.SignalIgnore => true
    | SignalDisposition.SignalDefault => default_action sig == SignalAction.SigActIgnore
    | SignalDisposition.SignalHandler => false

/-- RecordTask::is_fatal_signal (record_task.rs:1876). -/
def is_fatal_signal (t : RecordTask) (sig : Int)
    (deterministic : SignalDeterministic) : Bool :=
  if t.received_sigframe_sigsegv then
    true
  else
    let action := default_action sig
    if action != SignalAction.SigActDumpCore && action != SignalAction.SigActTerminate then
      false
    else if t.is_sig_ignored sig then
      deterministic == SignalDeterministic.DeterministicSig
    else
      !t.signal_has_user_handler sig

/-- RecordTask::sig_resolved_disposition (record_task.rs:1101). -/
def sig_resolved_disposition (t : RecordTask) (env : SigmaskEnv) (sig : Int)
    (deterministic : SignalDeterministic) : SignalResolvedDisposition :=
  if t.is_fatal_signal sig deterministic then
    SignalResolvedDisposition.DispositionFatal
  else if t.signal_has_user_handler sig && !t.is_sig_blocked env sig then
    SignalResolvedDisposition.DispositionUserHandler
  else
    SignalResolvedDisposition.DispositionIgnored

end RecordTask

/-- Modelled from the spec: `kernel_abi::is_restart_syscall_syscall` is not
under `src/`.  restart_syscall is syscall number 0 on x86 and 219 on
x86_64 (the Linux syscall tables the spec's "taking restart_syscall into
account" refers to). -/
def is_restart_syscall_syscall (no : Int) (arch : SupportedArch) : Bool :=
  match arch with
  | SupportedArch.x86 => no == 0
  | SupportedArch.x64 => no == 219

namespace RecordTask

/-- RecordTask::is_syscall_restart (record_task.rs:1396): false unless the
top of the stack is a syscall interruption; `restart_syscall` forces the
result true and maps the current number to the interrupted one; otherwise
the result is true exactly when the number and all six argument registers
match those saved in the interruption event. -/
def is_syscall_restart (t : RecordTask) : Bool :=
  match t.ev with
  | Event.syscall_interruption d =>
    let syscallno := t.regs.original_syscallno
    let is_restart := is_restart_syscall_syscall syscallno d.arch
    let syscallno := if is_restart then d.number else syscallno
    let skip :=
      if d.number != syscallno then
        true
      else
        !(d.regs.arg1 == t.regs.arg1 && d.regs.arg2 == t.regs.arg2 &&
          d.regs.arg3 == t.regs.arg3 && d.regs.arg4 == t.regs.arg4 &&
          d.regs.arg5 == t.regs.arg5 && d.regs.arg6 == t.regs.arg6)
    if !skip then true else is_restart
  | _ => false

/-- The behaviour claimed by the specification for `is_syscall_restart`,
written from the spec's words for comparison with the source translation:
true iff the task is at a syscall entry whose number (after mapping
`restart_syscall` to the interrupted number) and argument registers match
the top-of-stack syscall-interruption event. -/
def is_syscall_restart_claimed (t : RecordTask) : Bool :=
  match t.ev with
  | Event.syscall_interruption d =>
    let syscallno :=
      if is_restart_syscall_syscall t.regs.original_syscallno d.arch then
        d.number
      else
        t.regs.original_syscallno
    d.number == syscallno &&
      d.regs.arg1 == t.regs.arg1 && d.regs.arg2 == t.regs.arg2 &&
      d.regs.arg3 == t.regs.arg3 && d.regs.arg4 == t.regs.arg4 &&
      d.regs.arg5 == t.regs.arg5 && d.regs.arg6 == t.regs.arg6
  | _ => false

end RecordTask

/-- What the memory-recording family can observe of the tracee's memory:
an optional local (tracer-side) mapping of a range, the infallible read
used by `record_remote` (which panics on failure in the source), and the
fallible read used by `record_remote_fallible` (`none` is an error, `some`
returns the possibly-truncated bytes read). -/
structure MemEnv where
  local_mapping : Nat → Nat → Option (List Nat)
  read_mem : Nat → Nat → List Nat
  read_bytes_fallible : Nat → Nat → Option (List Nat)

namespace RecordTask

/-- TraceWriter::write_raw reached through `trace_writer_mut`: appends one
raw-data record for this task. -/
def write_raw (t : RecordTask) (data : List Nat) (addr : Nat) : RecordTask :=
  { t with trace_raw := t.trace_raw ++ [⟨t.rec_tid, data, addr⟩] }

/-- RecordTask::maybe_flush_syscallbuf (record_task.rs:1778): a no-op when
already flushing or when the task has no syscallbuf.  The rest of the body
is `unimplemented!()` in the source; modelled from the spec §4.4: the
flush writes a syscallbuf-flush event (not a raw-data record) and marks
the buffer flushed. -/
def maybe_flush_syscallbuf (t : RecordTask) : RecordTask :=
  if t.ev.event_type == EventType.EvSyscallbufFlush then
    t
  else if t.syscallbuf_child == 0 then
    t
  else
    { t with
      trace_events := t.trace_events ++ [EventType.EvSyscallbufFlush],
      flushed_syscallbuf := true }

/-- RecordTask::record_local (record_task.rs:1586): flush, then write the
already-read bytes — unless the address is null, in which case no record
is written. -/
def record_local (t : RecordTask) (addr : Nat) (data : List Nat) : RecordTask :=
  let t := t.maybe_flush_syscallbuf
  if addr == 0 then t else t.write_raw data addr

/-- RecordTask::record_remote_by_local_map (record_task.rs:1679): record
through the local mapping when one covers the range. -/
def record_remote_by_local_map (t : RecordTask) (env : MemEnv) (addr num_bytes : Nat) :
    RecordTask × Bool :=
  match env.local_mapping addr num_bytes with
  | some local_data => (t.record_local addr local_data, true)
  | none => (t, false)

/-- RecordTask::record_remote (record_task.rs:1607): flush, then read the
range and record it — unless the address is null, in which case no record
is written. -/
def record_remote (t : RecordTask) (env : MemEnv) (addr num_bytes : Nat) : RecordTask :=
  let t := t.maybe_flush_syscallbuf
  if addr == 0 then
    t
  else
    let step := t.record_remote_by_local_map env addr num_bytes
    if step.2 then step.1
    else step.1.write_raw (env.read_mem addr num_bytes) addr

/-- RecordTask::record_remote_fallible (record_task.rs:1636): record as
much of the range as is readable.  Note that a null address skips the read
but still writes a (zero-length) raw record.  `none` models the
propagated read error. -/
def record_remote_fallible (t : RecordTask) (env : MemEnv) (addr num_bytes : Nat) :
    Option (RecordTask × Nat) :=
  let step := t.record_remote_by_local_map env addr num_bytes
  if step.2 then
    some (step.1, num_bytes)
  else if addr != 0 then
    match env.read_bytes_fallible addr num_bytes with
    | none => none
    | some data => some (step.1.write_raw data addr, data.length)
  else
    some (step.1.write_raw [] addr, 0)

/-- RecordTask::record_remote_even_if_null (record_task.rs:1692): like
record_remote, but a null address produces a zero-length record. -/
def record_remote_even_if_null (t : RecordTask) (env : MemEnv) (addr num_bytes : Nat) :
    RecordTask :=
  let t := t.maybe_flush_syscallbuf
  if addr == 0 then
    t.write_raw [] addr
  else
    let step := t.record_remote_by_local_map env addr num_bytes
    if step.2 then step.1
    else step.1.write_raw (env.read_mem addr num_bytes) addr

end RecordTask

/-- Modelled from the spec: the per-architecture syscall-number constants
of the arch module are not under `src/`; these are the Linux x86 and
x86_64 syscall tables.  A syscall that does not exist on the architecture
gets the impossible number -1. -/
structure ArchSyscalls where
  SET_ROBUST_LIST : Int
  SIGACTION : Int
  RT_SIGACTION : Int
  SET_TID_ADDRESS : Int
  SIGSUSPEND : Int
  RT_SIGSUSPEND : Int
  SIGPROCMASK : Int
  RT_SIGPROCMASK : Int
  PSELECT6 : Int
  PSELECT6_TIME64 : Int
  PPOLL : Int
  PPOLL_TIME64 : Int
  WRITE : Int
  WRITEV : Int
  PWRITE64 : Int
  PWRITEV : Int
  PREAD64 : Int
  PREADV : Int
  word_bytes : Nat

/-- Linux x86_64 syscall numbers (`unsigned_word` is 8 bytes). -/
def x64Arch : ArchSyscalls :=
  { SET_ROBUST_LIST := 273, SIGACTION := -1, RT_SIGACTION := 13,
    SET_TID_ADDRESS := 218, SIGSUSPEND := -1, RT_SIGSUSPEND := 130,
    SIGPROCMASK := -1, RT_SIGPROCMASK := 14, PSELECT6 := 270,
    PSELECT6_TIME64 := -1, PPOLL := 271, PPOLL_TIME64 := -1,
    WRITE := 1, WRITEV := 20, PWRITE64 := 18, PWRITEV := 296,
    PREAD64 := 17, PREADV := 295, word_bytes := 8 }

/-- Linux x86 (i386) syscall numbers (`unsigned_word` is 4 bytes). -/
def x86Arch : ArchSyscalls :=
  { SET_ROBUST_LIST := 311, SIGACTION := 67, RT_SIGACTION := 174,
    SET_TID_ADDRESS := 258, SIGSUSPEND := 72, RT_SIGSUSPEND := 179,
    SIGPROCMASK := 126, RT_SIGPROCMASK := 175, PSELECT6 := 308,
    PSELECT6_TIME64 := 413, PPOLL := 309, PPOLL_TIME64 := 414,
    WRITE := 4, WRITEV := 146, PWRITE64 := 181, PWRITEV := 334,
    PREAD64 := 180, PREADV := 333, word_bytes := 4 }

/-- The `rd_arch_function!` dispatch on the tracee architecture. -/
def archSyscalls : SupportedArch → ArchSyscalls
  | SupportedArch.x86 => x86Arch
  | SupportedArch.x64 => x64Arch

/-- Interpret a machine word as a signed 64-bit integer. -/
def toSigned64 (v : Nat) : Int :=
  if v % 2 ^ 64 < 2 ^ 63 then ((v % 2 ^ 64 : Nat) : Int)
  else ((v % 2 ^ 64 : Nat) : Int) - 2 ^ 64

/-- Interpret a machine word as a signed 32-bit integer. -/
def toSigned32 (v : Nat) : Int :=
  if v % 2 ^ 32 < 2 ^ 31 then ((v % 2 ^ 32 : Nat) : Int)
  else ((v % 2 ^ 32 : Nat) : Int) - 2 ^ 32

/-- Modelled from the spec: Registers::syscall_failed (registers.rs is not
under `src/`): a syscall failed iff its signed result lies strictly
between -4096 and 0 (the kernel's errno-return convention). -/
def Registers.syscall_failed (r : Registers) : Bool :=
  let res := toSigned64 r.syscall_result
  decide (-4096 < res) && decide (res < 0)

/-- Modelled from the spec:
`seccomp_filter_rewriter::SECCOMP_MAGIC_SKIP_ORIGINAL_SYSCALLNO` is not
under `src/`; the spec calls it "the magic skip number" — a syscall number
no real syscall uses, which makes the kernel skip syscall processing.  Its
concrete value does not matter to the claims. -/
def SECCOMP_MAGIC_SKIP_ORIGINAL_SYSCALLNO : Int := -2

/-- The two sigaction flag bits the handler table mirrors
(`kernel_supplement::SA_RESETHAND` / `SA_SIGINFO`). -/
def SA_RESETHAND_VAL : Nat := 0x80000000

def SA_SIGINFO_VAL : Nat := 4

/-- The fields of an `Arch::kernel_sigaction` the handler table reads
(`Sighandler::init_arch`): the handler pointer and the flags word. -/
structure KernelSigaction where
  k_sa_handler : Nat := 0
  sa_flags : Nat := 0
deriving DecidableEq

/-- Sighandler::init_arch (record_task.rs:244): mirror the handler pointer
and decode the resethand / siginfo flags (the raw byte copy of the
sigaction is not modelled). -/
def Sighandler.init_from (ksa : KernelSigaction) : Sighandler :=
  { k_sa_handler := ksa.k_sa_handler,
    resethand := ksa.sa_flags &&& SA_RESETHAND_VAL != 0,
    takes_siginfo := ksa.sa_flags &&& SA_SIGINFO_VAL != 0 }

namespace RecordTask

/-- RecordTask::set_robust_list (record_task.rs:2121). -/
def set_robust_list (t : RecordTask) (list : Nat) (len : Nat) : RecordTask :=
  { t with robust_futex_list := list, robust_futex_list_len := len }

/-- RecordTask::set_tid_addr (record_task.rs:2188). -/
def set_tid_addr (t : RecordTask) (tid_addr : Nat) : RecordTask :=
  { t with tid_futex := tid_addr }

/-- RecordTask::update_sigaction_arch (record_task.rs:2165): when the
sigaction syscall succeeded and installed a new action (non-null second
argument), mirror the sigaction read from tracee memory (`ksa_read`) into
the handler-table entry of the signal in the first argument. -/
def update_sigaction_arch (t : RecordTask) (regs : Registers)
    (ksa_read : KernelSigaction) : RecordTask :=
  let sig := toSigned32 regs.arg1
  if regs.syscall_result == 0 && regs.arg2 != 0 then
    { t with
      sighandlers := fun s =>
        if s == sig then Sighandler.init_from ksa_read else t.sighandlers s }
  else
    t

/-- RecordTask::on_syscall_exit_arch (record_task.rs:2126): mirrored
kernel state is updated only when the syscall did not fail and was not
rewritten to the seccomp magic-skip number. -/
def on_syscall_exit_arch (t : RecordTask) (a : ArchSyscalls) (sys : Int)
    (regs : Registers) (ksa_read : KernelSigaction) : RecordTask :=
  if regs.original_syscallno == SECCOMP_MAGIC_SKIP_ORIGINAL_SYSCALLNO ||
      regs.syscall_failed then
    t
  else if sys == a.SET_ROBUST_LIST then
    t.set_robust_list regs.arg1 regs.arg2
  else if sys == a.SIGACTION || sys == a.RT_SIGACTION then
    t.update_sigaction_arch regs ksa_read
  else if sys == a.SET_TID_ADDRESS then
    t.set_tid_addr regs.arg1
  else if sys == a.SIGSUSPEND || sys == a.RT_SIGSUSPEND || sys == a.SIGPROCMASK ||
      sys == a.RT_SIGPROCMASK || sys == a.PSELECT6 || sys == a.PSELECT6_TIME64 ||
      sys == a.PPOLL || sys == a.PPOLL_TIME64 then
    t.invalidate_sigmask
  else
    t

end RecordTask

/-- file_monitor.rs:114 `is_implicit_offset_syscall_arch`. -/
def is_implicit_offset_syscall_arch (a : ArchSyscalls) (syscallno : Int) : Bool :=
  syscallno == a.WRITEV || syscallno == a.WRITE

/-- file_monitor.rs:122 `retrieve_offset_arch`.  `fdinfo_pos` is the value
parsed from the "pos:" line of `/proc/<tid>/fdinfo/<fd>` read after the
call (the source aborts when the file cannot be opened or the line cannot
be parsed, so only the successfully-parsed value appears here).  For the
explicit-offset syscalls on a 32-bit tracee the source computes
`arg4 as i64 | ((arg5_signed as i64) << 32)`; the argument registers of a
32-bit tracee hold 32-bit values and the sign-extension bits of arg5 are
shifted out of the 64-bit word, so the bit pattern is
`arg4 mod 2^32 + (arg5 mod 2^32) * 2^32` read as signed. -/
def retrieve_offset_arch (a : ArchSyscalls) (syscallno : Int) (regs : Registers)
    (fdinfo_pos : Nat) : Option Nat :=
  if syscallno == a.PWRITE64 || syscallno == a.PWRITEV || syscallno == a.PREAD64 ||
      syscallno == a.PREADV then
    let offset : Int :=
      if a.word_bytes == 4 then
        toSigned64 (regs.arg4 % 2 ^ 32 + regs.arg5 % 2 ^ 32 * 2 ^ 32)
      else
        toSigned64 regs.arg4
    if offset < 0 then none else some offset.toNat
  else if syscallno == a.WRITEV || syscallno == a.WRITE then
    if fdinfo_pos < regs.syscall_result then none
    else some (fdinfo_pos - regs.syscall_result)
  else
    none

/-- Kernel audit-architecture constants and the SIGSYS si_code, modelled
from the spec (the bindings module is not under `src/`):
AUDIT_ARCH_X86_64 = 0xC000003E, AUDIT_ARCH_I386 = 0x40000003, and
SYS_SECCOMP = 1. -/
def AUDIT_ARCH_X86_64 : Nat := 0xC000003E

def AUDIT_ARCH_I386 : Nat := 0x40000003

def SYS_SECCOMP : Int := 1

/-- record_session.rs `ContinueType`: how the next record_step resumes the
task. -/
inductive ContinueType
  | DontContinue
  | Continue
  | ContinueSyscall
deriving DecidableEq

/-- The tracee's in-memory `original_syscall_parameters` block read by
`maybe_restore_original_syscall_registers_arch`: the syscall number and
the six original argument values. -/
structure OrigSyscallParams where
  no : Int
  arg1 : Nat := 0
  arg2 : Nat := 0
  arg3 : Nat := 0
  arg4 : Nat := 0
  arg5 : Nat := 0
  arg6 : Nat := 0
deriving DecidableEq

namespace RecordTask

/-- TaskInner::set_regs: updates the register cache and pushes the values
to the tracee; the embedding logs every pushed register set in
`written_regs`. -/
def set_regs (t : RecordTask) (r : Registers) : RecordTask :=
  { t with regs := r, written_regs := t.written_regs ++ [r] }

/-- Modelled from the spec: TaskInner::canonicalize_regs is not under
`src/`; it re-tags the cached register snapshot with the detected syscall
architecture (the sign-extension canonicalization it also performs is a
no-op on the embedding's unbounded integers, and it does not push
registers to the tracee). -/
def canonicalize_regs (t : RecordTask) (arch : SupportedArch) : RecordTask :=
  { t with regs := { t.regs with arch := arch } }

/-- Rewrites the payload of a top-of-stack syscall or syscall-interruption
event (the `ev_mut().syscall_mut()` accesses of the source). -/
def modify_top_syscall (t : RecordTask) (f : SyscallEventData → SyscallEventData) :
    RecordTask :=
  match t.pending_events.getLast? with
  | some (Event.syscall_ev d) =>
    { t with pending_events := t.pending_events.dropLast ++ [Event.syscall_ev (f d)] }
  | some (Event.syscall_interruption d) =>
    { t with
      pending_events := t.pending_events.dropLast ++ [Event.syscall_interruption (f d)] }
  | _ => t

/-- RecordTask::record_current_event (record_task.rs:1812), specialized:
record_event first flushes the syscallbuf, then writes the current event's
frame.  The rest of the serialization machinery (memory dumps, checksums,
register snapshots in the frame, the possible syscallbuf reset) is
modelled from the spec §4.1 as writing the frame; none of it touches the
registers, the pending-event stack or the stashed-signal queue. -/
def record_current_event (t : RecordTask) : RecordTask :=
  let t := t.maybe_flush_syscallbuf
  { t with trace_events := t.trace_events ++ [t.ev.event_type] }

/-- record_task.rs:2321 `maybe_restore_original_syscall_registers_arch`:
the preload thread-locals lookup and the read of the
`original_syscall_parameters` pointer are collapsed into the optional
`params` value (`none` when the thread-locals mapping is absent or the
pointer is null).  When the stored syscall number matches the current one,
the six argument registers are restored and pushed to the tracee. -/
def maybe_restore_original_syscall_registers (t : RecordTask)
    (params : Option OrigSyscallParams) : RecordTask :=
  match params with
  | none => t
  | some args =>
    let r := t.regs
    if args.no != r.syscallno then
      t
    else
      t.set_regs
        { r with
          arg1 := args.arg1, arg2 := args.arg2, arg3 := args.arg3,
          arg4 := args.arg4, arg5 := args.arg5, arg6 := args.arg6 }

end RecordTask

/-- Modelled from the spec: `note_entering_syscall`'s body is
`unimplemented!()` in the source (record_session.rs:938); per spec §4.3
the freshly pushed syscall event enters its entering-syscall state. -/
def note_entering_syscall (t : RecordTask) : RecordTask :=
  t.modify_top_syscall (fun d => { d with state := SyscallState.EnteringSyscall })

/-- Modelled from the spec: `rec_abort_prepared_syscall`'s body is
`unimplemented!()` in the source (record_session.rs:942); per spec §4.3 it
discards prepared scratch state, which lies outside the embedded fields. -/
def rec_abort_prepared_syscall (t : RecordTask) : RecordTask :=
  t

/-- What `handle_seccomp_trap` observes of the tracee beyond the task
state: the syscall architecture detected by `detect_syscall_arch`, whether
the tracee sits in an untraced (buffered) syscall
(`is_in_untraced_syscall`, an address-space query), the optional
original-syscall-parameters block in tracee memory, and the register cache
produced by the `resume_execution`/`did_waitpid` round trip that advances
a buffered syscall to its exit stop. -/
structure SeccompEnv where
  syscall_arch : SupportedArch
  in_untraced_syscall : Bool
  orig_syscall_params : Option OrigSyscallParams := none
  post_resume_regs : Registers := {}

/-- The reconciliation step of `handle_seccomp_trap`
(record_session.rs:838-855): when a syscall event was already pushed
(by the desched path), check it matches the intercepted syscall
(`none` models the fatal assertion), discard prepared scratch state, and
pop either the syscall-interruption (not yet recorded) or the plain
syscall event (already recorded — the returned flag). -/
def seccomp_reconcile_pushed_event (t : RecordTask) (syscallno : Int) :
    Option (RecordTask × Bool) :=
  if t.ev.is_syscall_event then
    (t.ev.syscallData?).bind fun d =>
      if d.number != syscallno then
        none
      else
        let t := rec_abort_prepared_syscall t
        if t.ev.event_type == EventType.EvSyscallInterruption then
          (t.pop_syscall_interruption).map (fun t2 => (t2, false))
        else
          (t.pop_syscall).map (fun t2 => (t2, true))
  else
    some (t, false)

/-- The untraced-syscall setup of `handle_seccomp_trap`
(record_session.rs:857-876): set the delay-reset flag (`none` models the
assertion that it was clear) and push a seccomp-trap event.  The write
clearing the in-buffer desched_signal_may_be_relevant byte is tracee
memory outside the embedded fields. -/
def seccomp_untraced_push (t : RecordTask) (in_untraced : Bool) : Option RecordTask :=
  if in_untraced then
    if t.delay_syscallbuf_reset_for_seccomp_trap then
      none
    else
      some (({ t with delay_syscallbuf_reset_for_seccomp_trap := true }).push_event
        Event.seccomp_trap)
  else
    some t

/-- The untraced-syscall finish of `handle_seccomp_trap`
(record_session.rs:914-929): record the exit state immediately, pop the
syscall, and advance the tracee past the seccomp stop with a
syscall-continue — after which the register cache holds whatever the
`did_waitpid` reconciliation read back (`post_resume_regs`). -/
def seccomp_untraced_finish (t : RecordTask) (env : SeccompEnv) : Option RecordTask :=
  if env.in_untraced_syscall then
    let t := t.modify_top_syscall (fun d => { d with state := SyscallState.ExitingSyscall })
    let t := t.record_current_event
    (t.pop_syscall).map fun t2 => { t2 with regs := env.post_resume_regs }
  else
    some t

/-- The middle of `handle_seccomp_trap` (record_session.rs:878-912): push
the new syscall event with failed_during_preparation, note it entering,
record the entry for a buffered syscall whose entry was not already
recorded, stash the synthetic deterministic SIGSYS built from the seccomp
data, intercepted syscall number and audit architecture, push the
registers with the syscall number restored (the original-syscallno keeps
the magic value in `r1`), and restore the saved original syscall
arguments if the preload library published them. -/
def seccomp_push_stash_restore (tp : RecordTask) (env : SeccompEnv)
    (seccomp_data : Nat) (syscallno : Int) (r1 : Registers) (already : Bool) :
    RecordTask :=
  let tq := tp.push_syscall_event syscallno env.syscall_arch
  let tq := tq.modify_top_syscall (fun d => { d with failed_during_preparation := true })
  let tq := note_entering_syscall tq
  let tq :=
    if env.in_untraced_syscall && !already then
      tq.record_current_event
    else
      tq
  let si : SigInfo :=
    { si_signo := SIGSYS_VAL
      si_errno := (seccomp_data : Int)
      si_code := SYS_SECCOMP
      sigsys_arch :=
        match r1.arch with
        | SupportedArch.x86 => AUDIT_ARCH_I386
        | SupportedArch.x64 => AUDIT_ARCH_X86_64
      sigsys_syscall := syscallno
      sigsys_call_addr := tq.regs.ip }
  let tq := tq.stash_synthetic_sig si SignalDeterministic.DeterministicSig
  let tq := tq.set_regs { r1 with syscallno := syscallno }
  tq.maybe_restore_original_syscall_registers env.orig_syscall_params

/-- record_session.rs:825 `handle_seccomp_trap`, composed from the stages
above: canonicalize the registers, rewrite the original-syscallno to the
magic skip number and push the registers to the tracee, reconcile an
already-pushed syscall event, do the untraced-syscall setup, push and
record the new syscall event and stash the synthetic SIGSYS, and finish
the untraced-syscall path.  `none` models a fatal assertion or panic; the
step continuation is do-not-continue. -/
def handle_seccomp_trap (t0 : RecordTask) (env : SeccompEnv) (seccomp_data : Nat) :
    Option (RecordTask × ContinueType) :=
  let arch := env.syscall_arch
  let t1 := t0.canonicalize_regs arch
  let r1 := { t1.regs with original_syscallno := SECCOMP_MAGIC_SKIP_ORIGINAL_SYSCALLNO }
  let syscallno := t1.regs.original_syscallno
  let tw := t1.set_regs r1
  (seccomp_reconcile_pushed_event tw syscallno).bind fun step1 =>
    (seccomp_untraced_push step1.1 env.in_untraced_syscall).bind fun tp =>
      let tq := seccomp_push_stash_restore tp env seccomp_data syscallno r1 step1.2
      (seccomp_untraced_finish tq env).map fun t2 => (t2, ContinueType.DontContinue)

/-!
Theorems settling the claims, with the concrete inputs used by their
witnesses and counterexamples.
-/

/-- Fields of the task state that `maybe_flush_syscallbuf` never touches. -/
theorem maybe_flush_syscallbuf_fields (t : RecordTask) :
    t.maybe_flush_syscallbuf.trace_raw = t.trace_raw ∧
      t.maybe_flush_syscallbuf.rec_tid = t.rec_tid ∧
      t.maybe_flush_syscallbuf.stashed_signals = t.stashed_signals ∧
      t.maybe_flush_syscallbuf.regs = t.regs ∧
      t.maybe_flush_syscallbuf.written_regs = t.written_regs ∧
      t.maybe_flush_syscallbuf.pending_events = t.pending_events := by
  unfold RecordTask.maybe_flush_syscallbuf
  split
  · exact ⟨rfl, rfl, rfl, rfl, rfl, rfl⟩
  split
  · exact ⟨rfl, rfl, rfl, rfl, rfl, rfl⟩
  · exact ⟨rfl, rfl, rfl, rfl, rfl, rfl⟩

/-- C10: `on_syscall_exit` leaves every piece of mirrored kernel state —
the robust-futex list pointer and length, the signal-handler table, the
clear-tid futex address and the sigmask dirty flag — unchanged whenever
the syscall result indicates failure or the original syscall number
equals the seccomp magic-skip value. -/
theorem C10_on_syscall_exit_preserves_mirrored_state (t : RecordTask)
    (a : ArchSyscalls) (sys : Int) (regs : Registers) (ksa : KernelSigaction)
    (h : regs.original_syscallno = SECCOMP_MAGIC_SKIP_ORIGINAL_SYSCALLNO ∨
      regs.syscall_failed = true) :
    (t.on_syscall_exit_arch a sys regs ksa).robust_futex_list = t.robust_futex_list ∧
      (t.on_syscall_exit_arch a sys regs ksa).robust_futex_list_len = t.robust_futex_list_len ∧
      (t.on_syscall_exit_arch a sys regs ksa).sighandlers = t.sighandlers ∧
      (t.on_syscall_exit_arch a sys regs ksa).tid_futex = t.tid_futex ∧
      (t.on_syscall_exit_arch a sys regs ksa).blocked_sigs_dirty = t.blocked_sigs_dirty := by
  have hid : t.on_syscall_exit_arch a sys regs ksa = t := by
    unfold RecordTask.on_syscall_exit_arch
    rcases h with h | h
    · simp [h]
    · simp [h]
  rw [hid]
  exact ⟨rfl, rfl, rfl, rfl, rfl⟩

/-- Registers whose syscall result is the errno value -1 (as a 64-bit
word), i.e. a failed syscall. -/
def regsC10 : Registers :=
  { syscall_result := 2 ^ 64 - 1 }

/-- Witness for C10 at a concrete failed `set_robust_list` exit. -/
theorem C10_witness :
    (({ robust_futex_list := 5 } : RecordTask).on_syscall_exit_arch
        x64Arch 273 regsC10 {}).robust_futex_list = 5 :=
  (C10_on_syscall_exit_preserves_mirrored_state { robust_futex_list := 5 }
    x64Arch 273 regsC10 {} (Or.inr (by decide))).1

/-- C5: `get_sigmask` returns the cached mask untouched when the dirty
flag is clear; when dirty it refreshes the cache from
`read_sigmask_from_process`, and if the task is at a point where an
interrupted syscall may be restarted the refreshed value is the SigBlk
field parsed from `/proc/<tid>/status`, independent of what
PTRACE_GETSIGMASK would return. -/
theorem C5_get_sigmask_cache (t : RecordTask) (env : SigmaskEnv) :
    (t.blocked_sigs_dirty = false → t.get_sigmask env = (t.blocked_sigs, t)) ∧
      (t.blocked_sigs_dirty = true →
        (t.get_sigmask env).1 = t.read_sigmask_from_process env ∧
          (t.get_sigmask env).2.blocked_sigs = t.read_sigmask_from_process env ∧
          (t.get_sigmask env).2.blocked_sigs_dirty = false) ∧
      (t.blocked_sigs_dirty = true → t.at_may_restart_syscall = true →
        (t.get_sigmask env).1 = env.proc_sigblk) := by
  refine ⟨fun h => ?_, fun h => ?_, fun h hr => ?_⟩
  · unfold RecordTask.get_sigmask
    simp [h]
  · unfold RecordTask.get_sigmask
    simp [h]
  · unfold RecordTask.get_sigmask RecordTask.read_sigmask_from_process
    simp [h, hr]

/-- A task sitting at a syscall interruption with a dirty sigmask cache. -/
def taskC5 : RecordTask :=
  { pending_events := [Event.sentinel,
      Event.syscall_interruption { number := 0, arch := SupportedArch.x64 }],
    blocked_sigs := 3, blocked_sigs_dirty := true }

/-- A kernel view where ptrace and /proc disagree about the mask. -/
def sigmaskEnvC5 : SigmaskEnv :=
  { ptrace_getsigmask := some 5, proc_sigblk := 7 }

/-- Witness for C5: at the interruption the refreshed mask is the /proc
value 7, not the ptrace value 5. -/
theorem C5_witness : (taskC5.get_sigmask sigmaskEnvC5).1 = 7 :=
  (C5_get_sigmask_cache taskC5 sigmaskEnvC5).2.2 rfl (by decide)

/-- A task with one stashed nondeterministic SIGUSR1 and the blocking flag
set (as `stash_sig` leaves it). -/
def taskC9 : RecordTask :=
  { stashed_signals := [⟨{ si_signo := SIGUSR1_VAL }, SignalDeterministic.NondeterministicSig⟩],
    stashed_signals_blocking_more_signals := true }

/-- C9 counterexample: popping the only stashed entry empties the queue
yet leaves `stashed_signals_blocking_more_signals` set — `pop_stash_sig`
itself does not clear the flag. -/
theorem C9_counterexample :
    ((taskC9.pop_stash_sig 0).map
        (fun t => (t.stashed_signals.isEmpty, t.stashed_signals_blocking_more_signals))) =
      some (true, true) := by
  decide

/-- C9 (amended): `pop_stash_sig` removes exactly the identified entry and
leaves the blocking flag untouched; the flag is cleared — together with
the break-at flags — by the subsequent `stashed_signal_processed` call,
exactly when the queue has become empty. -/
theorem C9_pop_stash_sig_exact (t : RecordTask) (pos : Nat)
    (h : pos < t.stashed_signals.length) :
    ∃ t2, t.pop_stash_sig pos = some t2 ∧
      t2.stashed_signals = t.stashed_signals.take pos ++ t.stashed_signals.drop (pos + 1) ∧
      t2.stashed_signals.length = t.stashed_signals.length - 1 ∧
      t2.stashed_signals_blocking_more_signals = t.stashed_signals_blocking_more_signals ∧
      (t2.stashed_signal_processed).stashed_signals_blocking_more_signals =
        !t2.stashed_signals.isEmpty := by
  refine ⟨{ t with stashed_signals := t.stashed_signals.eraseIdx pos }, ?_, ?_, ?_, rfl, rfl⟩
  · unfold RecordTask.pop_stash_sig
    simp [h]
  · simpa using List.eraseIdx_eq_take_drop_succ t.stashed_signals pos
  · simp [List.length_eraseIdx, h]

/-- Witness for C9 at the concrete one-entry queue. -/
theorem C9_witness :
    ((taskC9.pop_stash_sig 0).map (fun t => t.stashed_signals.length)) = some 0 := by
  obtain ⟨t2, h1, _, h3, _, _⟩ := C9_pop_stash_sig_exact taskC9 0 (by decide)
  rw [h1]
  have hz : t2.stashed_signals.length = 0 := by rw [h3]; rfl
  simp [hz]

/-- The memory environment with no local mappings at all; remote reads
succeed and return zero bytes. -/
def memEnvC7 : MemEnv :=
  { local_mapping := fun _ _ => none,
    read_mem := fun _ n => List.replicate n 0,
    read_bytes_fallible := fun _ n => some (List.replicate n 0) }

/-- A fresh task recording as tid 42. -/
def taskC7 : RecordTask :=
  { rec_tid := 42 }

/-- C7 counterexample: `record_remote_fallible` called with a null address
(and no local mapping) writes a zero-length raw record, while
`record_remote` writes none — so `record_remote_even_if_null` is not the
single operation that records at a null address. -/
theorem C7_counterexample :
    ((taskC7.record_remote_fallible memEnvC7 0 16).map fun p => p.1.trace_raw) =
        some [⟨42, [], 0⟩] ∧
      (taskC7.record_remote memEnvC7 0 16).trace_raw = [] := by
  decide

/-- C7 (amended): with a null address, `record_local` and `record_remote`
write no raw record; `record_remote_even_if_null` writes a zero-length
record; and `record_remote_fallible` also writes a zero-length record
when no local mapping covers the (null) range, but none when one does. -/
theorem C7_null_address_records (t : RecordTask) (env : MemEnv) (data : List Nat) (n : Nat) :
    (t.record_local 0 data).trace_raw = t.trace_raw ∧
      (t.record_remote env 0 n).trace_raw = t.trace_raw ∧
      (t.record_remote_even_if_null env 0 n).trace_raw =
        t.trace_raw ++ [⟨t.rec_tid, [], 0⟩] ∧
      (env.local_mapping 0 n = none →
        ((t.record_remote_fallible env 0 n).map fun p => p.1.trace_raw) =
          some (t.trace_raw ++ [⟨t.rec_tid, [], 0⟩])) ∧
      (∀ d, env.local_mapping 0 n = some d →
        ((t.record_remote_fallible env 0 n).map fun p => p.1.trace_raw) =
          some t.trace_raw) := by
  obtain ⟨hraw, htid, -, -, -, -⟩ := maybe_flush_syscallbuf_fields t
  refine ⟨?_, ?_, ?_, fun hnone => ?_, fun d hsome => ?_⟩
  · unfold RecordTask.record_local
    simpa using hraw
  · unfold RecordTask.record_remote
    simpa using hraw
  · unfold RecordTask.record_remote_even_if_null RecordTask.write_raw
    simp [hraw, htid]
  · unfold RecordTask.record_remote_fallible RecordTask.record_remote_by_local_map
    simp [hnone, RecordTask.write_raw]
  · unfold RecordTask.record_remote_fallible RecordTask.record_remote_by_local_map
    unfold RecordTask.record_local
    simp [hsome, hraw]

/-- Witness for C7: the even-if-null record and the fallible null record
at the concrete task. -/
theorem C7_witness :
    (taskC7.record_remote_even_if_null memEnvC7 0 8).trace_raw = [⟨42, [], 0⟩] ∧
      ((taskC7.record_remote_fallible memEnvC7 0 8).map fun p => p.1.trace_raw) =
        some [⟨42, [], 0⟩] := by
  have h := C7_null_address_records taskC7 memEnvC7 [] 8
  exact ⟨h.2.2.1, h.2.2.2.1 rfl⟩

/-- The pending-event-stack invariant stated by the spec: the stack is
nonempty and its bottom element is the sentinel event. -/
def stack_inv (t : RecordTask) : Prop :=
  t.pending_events ≠ [] ∧ t.pending_events.head? = some Event.sentinel

/-- Only the sentinel constructor carries the sentinel tag. -/
theorem event_type_eq_sentinel_iff (e : Event) :
    e.event_type = EventType.EvSentinel ↔ e = Event.sentinel := by
  cases e <;> simp [Event.event_type]

/-- A successful checked pop of a non-sentinel tag preserves the stack
invariant: the stack held at least the sentinel below the popped event. -/
theorem pop_event_preserves_stack_inv (t : RecordTask) (ty : EventType)
    (t2 : RecordTask) (hty : ty ≠ EventType.EvSentinel)
    (hpop : t.pop_event ty = some t2) (hinv : stack_inv t) : stack_inv t2 := by
  obtain ⟨hne, hh⟩ := hinv
  unfold RecordTask.pop_event at hpop
  rcases hl : t.pending_events.getLast? with _ | e
  · rw [hl] at hpop
    exact absurd hpop (by simp)
  · rw [hl, Option.some_bind] at hpop
    by_cases heq : (e.event_type == ty) = true
    · rw [if_pos heq] at hpop
      obtain rfl : { t with pending_events := t.pending_events.dropLast } = t2 :=
        Option.some.inj hpop
      rcases hev : t.pending_events with _ | ⟨a, as⟩
      · exact absurd hev hne
      rcases as with _ | ⟨b, bs⟩
      · -- a one-element stack holds just the sentinel, whose tag the pop
        -- would have rejected
        rw [hev] at hh hl
        have ha : a = Event.sentinel := by simpa using hh
        have he : a = e := by simpa using hl
        have hts : ty = EventType.EvSentinel := by
          have hbeq := (beq_iff_eq).mp heq
          rw [← he, ha] at hbeq
          exact hbeq.symm
        exact absurd hts hty
      · rw [hev] at hh
        constructor
        · show ((a :: b :: bs).dropLast : List Event) ≠ []
          rw [List.dropLast_cons₂]
          simp
        · show ((a :: b :: bs).dropLast : List Event).head? = some Event.sentinel
          rw [List.dropLast_cons₂]
          simpa using hh
    · rw [if_neg heq] at hpop
      exact absurd hpop (by simp)

/-- C3: task creation establishes the pending-event-stack invariant
(nonempty, sentinel at the bottom), and push_event as well as every
successful pop operation — the generic checked pop of any non-sentinel
tag, hence each of the seven pop_* helpers — preserves it while the task
is alive. -/
theorem C3_pending_event_stack_invariant :
    (∀ regs rec_tid sh, stack_inv (RecordTask.new regs rec_tid sh)) ∧
      (∀ t e, stack_inv t → stack_inv (t.push_event e)) ∧
      (∀ t ty t2, ty ≠ EventType.EvSentinel → t.pop_event ty = some t2 →
        stack_inv t → stack_inv t2) ∧
      (∀ t t2, (t.pop_noop = some t2 ∨ t.pop_desched = some t2 ∨
          t.pop_seccomp_trap = some t2 ∨ t.pop_signal_delivery = some t2 ∨
          t.pop_signal_handler = some t2 ∨ t.pop_syscall = some t2 ∨
          t.pop_syscall_interruption = some t2) →
        stack_inv t → stack_inv t2) := by
  refine ⟨?_, ?_, pop_event_preserves_stack_inv, ?_⟩
  · intro regs rec_tid sh
    constructor <;> simp [RecordTask.new, RecordTask.push_event]
  · intro t e hinv
    obtain ⟨hne, hh⟩ := hinv
    constructor
    · simp [RecordTask.push_event]
    · rcases hev : t.pending_events with - | ⟨a, as⟩
      · exact absurd hev hne
      · rw [hev] at hh
        simpa [RecordTask.push_event, hev] using hh
  · intro t t2 hpop hinv
    rcases hpop with h | h | h | h | h | h | h <;>
      exact pop_event_preserves_stack_inv t _ t2 (by simp) h hinv

/-- A live task whose stack holds a noop above the sentinel. -/
def taskC3 : RecordTask :=
  { pending_events := [Event.sentinel, Event.noop] }

/-- The state after popping the noop from `taskC3`. -/
def taskC3pop : RecordTask :=
  { pending_events := [Event.sentinel] }

/-- Popping the noop from `taskC3` succeeds and yields `taskC3pop`. -/
theorem taskC3_pop_eq : taskC3.pop_noop = some taskC3pop := rfl

/-- Witness for C3: the invariant after creation and after a concrete
successful pop. -/
theorem C3_witness :
    stack_inv (RecordTask.new {} 1 (fun _ => {})) ∧ stack_inv taskC3pop :=
  ⟨C3_pending_event_stack_invariant.1 {} 1 (fun _ => {}),
   C3_pending_event_stack_invariant.2.2.2 taskC3 taskC3pop (Or.inl taskC3_pop_eq)
     (by constructor <;> decide)⟩

/-- stashCoalesce at a matching head: remove it when a deterministic stash
supersedes a nondeterministic entry, otherwise drop the new stash. -/
theorem stashCoalesce_cons_match (si : SigInfo) (det : SignalDeterministic)
    (old : StashedSignal) (post : List StashedSignal)
    (hold : old.siginfo.si_signo = si.si_signo) :
    stashCoalesce si det (old :: post) =
      if det = SignalDeterministic.DeterministicSig ∧
          old.deterministic = SignalDeterministic.NondeterministicSig then
        some post
      else
        none := by
  unfold stashCoalesce
  rw [if_pos (by simp [hold])]
  by_cases h1 : det = SignalDeterministic.DeterministicSig
  · by_cases h2 : old.deterministic = SignalDeterministic.NondeterministicSig
    · simp [h1, h2]
    · simp [h1, h2]
  · simp [h1]

/-- stashCoalesce skips a non-matching head. -/
theorem stashCoalesce_cons_nomatch (si : SigInfo) (det : SignalDeterministic)
    (a : StashedSignal) (rest : List StashedSignal)
    (ha : a.siginfo.si_signo ≠ si.si_signo) :
    stashCoalesce si det (a :: rest) = (stashCoalesce si det rest).map (a :: ·) := by
  simp only [stashCoalesce]
  rw [if_neg (by simp [ha])]

/-- stashCoalesce on a queue with no matching entry keeps it unchanged. -/
theorem stashCoalesce_of_not_mem (si : SigInfo) (det : SignalDeterministic)
    (q : List StashedSignal) (hq : ∀ e ∈ q, e.siginfo.si_signo ≠ si.si_signo) :
    stashCoalesce si det q = some q := by
  induction q with
  | nil => rfl
  | cons a rest ih =>
    rw [stashCoalesce_cons_nomatch si det a rest (hq a (by simp)),
      ih (fun e he => hq e (by simp [he]))]
    rfl

/-- stashCoalesce acts at the first matching entry, scanning past the
clean prefix. -/
theorem stashCoalesce_append (si : SigInfo) (det : SignalDeterministic)
    (pre : List StashedSignal) (old : StashedSignal) (post : List StashedSignal)
    (hpre : ∀ e ∈ pre, e.siginfo.si_signo ≠ si.si_signo)
    (hold : old.siginfo.si_signo = si.si_signo) :
    stashCoalesce si det (pre ++ old :: post) =
      if det = SignalDeterministic.DeterministicSig ∧
          old.deterministic = SignalDeterministic.NondeterministicSig then
        some (pre ++ post)
      else
        none := by
  induction pre with
  | nil => simpa using stashCoalesce_cons_match si det old post hold
  | cons a rest ih =>
    rw [List.cons_append,
      stashCoalesce_cons_nomatch si det a (rest ++ old :: post) (hpre a (by simp)),
      ih (fun e he => hpre e (by simp [he]))]
    split
    · rfl
    · rfl

/-- C1 (amended): stashing a non-realtime signal whose number already has
exactly one queued entry leaves exactly one queued entry for that number,
for both stash functions.  For stash_synthetic_sig, a deterministic stash
over a nondeterministic entry removes that entry and inserts the new one
at the front of the queue, and otherwise the queue is unchanged; stash_sig
always leaves the queue unchanged in this situation, whatever the
determinism of either occurrence. -/
theorem C1_stash_coalescing (t : RecordTask) (si : SigInfo)
    (det det2 : SignalDeterministic) (pre post : List StashedSignal)
    (old : StashedSignal) (hq : t.stashed_signals = pre ++ old :: post)
    (hpre : ∀ e ∈ pre, e.siginfo.si_signo ≠ si.si_signo)
    (hpost : ∀ e ∈ post, e.siginfo.si_signo ≠ si.si_signo)
    (hold : old.siginfo.si_signo = si.si_signo)
    (hsig : si.si_signo < SIGRTMIN_VAL) (hstop : t.stop_sig = si.si_signo) :
    (t.stash_sig det2).stashed_signals = t.stashed_signals ∧
      (t.stash_synthetic_sig si det).stashed_signals =
        (if det = SignalDeterministic.DeterministicSig ∧
            old.deterministic = SignalDeterministic.NondeterministicSig then
          ⟨si, det⟩ :: (pre ++ post)
        else
          t.stashed_signals) ∧
      (t.stash_sig det2).stashed_signals.countP
        (fun e => e.siginfo.si_signo == si.si_signo) = 1 ∧
      (t.stash_synthetic_sig si det).stashed_signals.countP
        (fun e => e.siginfo.si_signo == si.si_signo) = 1 := by
  have hcond : (decide (t.stop_sig < SIGRTMIN_VAL) &&
      t.stashed_signals.any fun it => it.siginfo.si_signo == t.stop_sig) = true := by
    rw [Bool.and_eq_true]
    refine ⟨by rw [hstop]; exact decide_eq_true hsig, ?_⟩
    rw [hq]
    refine List.any_eq_true.mpr ⟨old, List.mem_append_right _ (List.mem_cons_self _ _), ?_⟩
    rw [hstop]
    simp [hold]
  have hdrop : (t.stash_sig det2).stashed_signals = t.stashed_signals := by
    simp only [RecordTask.stash_sig]
    rw [if_pos hcond]
  have hcount : t.stashed_signals.countP
      (fun e => e.siginfo.si_signo == si.si_signo) = 1 := by
    rw [hq, List.countP_append, List.countP_cons]
    rw [List.countP_eq_zero.mpr (by intro e he; simpa using hpre e he),
      List.countP_eq_zero.mpr (by intro e he; simpa using hpost e he)]
    simp [hold]
  have hsynth : (t.stash_synthetic_sig si det).stashed_signals =
      (if det = SignalDeterministic.DeterministicSig ∧
          old.deterministic = SignalDeterministic.NondeterministicSig then
        ⟨si, det⟩ :: (pre ++ post)
      else
        t.stashed_signals) := by
    simp only [RecordTask.stash_synthetic_sig]
    rw [if_pos (decide_eq_true hsig), hq,
      stashCoalesce_append si det pre old post hpre hold]
    by_cases hc : det = SignalDeterministic.DeterministicSig ∧
        old.deterministic = SignalDeterministic.NondeterministicSig
    · rw [if_pos hc, if_pos hc]
    · rw [if_neg hc, if_neg hc]
      exact hq
  refine ⟨hdrop, hsynth, by rw [hdrop, hcount], ?_⟩
  rw [hsynth]
  split
  · rw [List.countP_cons, List.countP_append]
    rw [List.countP_eq_zero.mpr (by intro e he; simpa using hpre e he),
      List.countP_eq_zero.mpr (by intro e he; simpa using hpost e he)]
    simp
  · rw [hcount]

/-- A SIGUSR1 siginfo. -/
def sigInfoUsr1 : SigInfo :=
  { si_signo := SIGUSR1_VAL }

/-- A task with one stashed nondeterministic SIGUSR1, stopped at another
SIGUSR1. -/
def taskC1 : RecordTask :=
  { stashed_signals := [⟨sigInfoUsr1, SignalDeterministic.NondeterministicSig⟩],
    stashed_signals_blocking_more_signals := true,
    stop_sig := SIGUSR1_VAL, pending_siginfo := sigInfoUsr1 }

/-- C1 counterexample: a deterministic stash_sig of SIGUSR1 over an
existing nondeterministic SIGUSR1 entry is simply dropped — the queue
still holds only the nondeterministic entry, so the claimed supersede
rule (remove the nondeterministic entry, insert the deterministic one at
the front) does not hold for stash_sig. -/
theorem C1_counterexample :
    (taskC1.stash_sig SignalDeterministic.DeterministicSig).stashed_signals =
      [⟨sigInfoUsr1, SignalDeterministic.NondeterministicSig⟩] := by
  decide

/-- Witness for C1: stash_synthetic_sig does supersede the concrete
nondeterministic entry at the front. -/
theorem C1_witness :
    (taskC1.stash_synthetic_sig sigInfoUsr1
        SignalDeterministic.DeterministicSig).stashed_signals =
      [⟨sigInfoUsr1, SignalDeterministic.DeterministicSig⟩] := by
  have h := (C1_stash_coalescing taskC1 sigInfoUsr1
    SignalDeterministic.DeterministicSig SignalDeterministic.NondeterministicSig
    [] [] ⟨sigInfoUsr1, SignalDeterministic.NondeterministicSig⟩
    rfl (by simp) (by simp) rfl (by decide) rfl).2.1
  simpa using h

/-- C6 (amended): `is_syscall_restart` is true iff the top of the
pending-event stack is a syscall-interruption event and either the current
syscall is `restart_syscall` — in which case the argument registers are
not compared — or the current syscall number and all six argument
registers equal those saved in the interruption event. -/
theorem C6_is_syscall_restart_iff (t : RecordTask) :
    t.is_syscall_restart = true ↔
      ∃ d, t.ev = Event.syscall_interruption d ∧
        (is_restart_syscall_syscall t.regs.original_syscallno d.arch = true ∨
          (d.number = t.regs.original_syscallno ∧
            d.regs.arg1 = t.regs.arg1 ∧ d.regs.arg2 = t.regs.arg2 ∧
            d.regs.arg3 = t.regs.arg3 ∧ d.regs.arg4 = t.regs.arg4 ∧
            d.regs.arg5 = t.regs.arg5 ∧ d.regs.arg6 = t.regs.arg6)) := by
  unfold RecordTask.is_syscall_restart
  cases hev : t.ev with
  | syscall_interruption d =>
    simp only [hev]
    by_cases hr : is_restart_syscall_syscall t.regs.original_syscallno d.arch = true
    · simp [hr]
    · simp only [Bool.not_eq_true] at hr
      simp [hr]
      tauto
  | sentinel => simp [hev]
  | noop => simp [hev]
  | desched r0 => simp [hev]
  | seccomp_trap => simp [hev]
  | signal_ev si det => simp [hev]
  | signal_delivery si det => simp [hev]
  | signal_handler si det => simp [hev]
  | syscall_ev d => simp [hev]
  | syscallbuf_flush => simp [hev]
  | syscallbuf_reset => simp [hev]
  | exit_ev => simp [hev]

/-- The registers saved when syscall 1 was interrupted (all args zero). -/
def savedRegsC6 : Registers :=
  { original_syscallno := 1, syscallno := 1 }

/-- The interruption event payload for syscall 1 with the saved
registers. -/
def sedC6 : SyscallEventData :=
  { number := 1, arch := SupportedArch.x64, regs := savedRegsC6 }

/-- A task at a restart_syscall (219 on x86_64) stop whose current
argument registers differ from the saved ones. -/
def taskC6 : RecordTask :=
  { pending_events := [Event.sentinel, Event.syscall_interruption sedC6],
    regs := { original_syscallno := 219, arg1 := 9, arg2 := 9 } }

/-- C6 counterexample: at a restart_syscall stop `is_syscall_restart`
returns true without comparing the argument registers, although the saved
arguments differ from the current ones — the claimed iff (number and all
six argument registers must match) fails. -/
theorem C6_counterexample :
    taskC6.is_syscall_restart = true ∧
      taskC6.is_syscall_restart_claimed = false ∧
      taskC6.regs.arg1 ≠ savedRegsC6.arg1 := by
  decide

/-- The interruption event payload for syscall 7 with argument 3. -/
def sedC6r : SyscallEventData :=
  { number := 7, arch := SupportedArch.x64, regs := { original_syscallno := 7, arg1 := 3 } }

/-- A task resuming the same syscall 7 with identical arguments. -/
def taskC6r : RecordTask :=
  { pending_events := [Event.sentinel, Event.syscall_interruption sedC6r],
    regs := { original_syscallno := 7, arg1 := 3 } }

/-- Witness for C6: a restart with matching number and arguments. -/
theorem C6_witness : taskC6r.is_syscall_restart = true :=
  (C6_is_syscall_restart_iff taskC6r).mpr
    ⟨sedC6r, by decide, Or.inr (by decide)⟩

/-- An ignored signal has no user handler: the disposition is a single
three-valued field of the handler-table entry. -/
theorem is_sig_ignored_no_handler (t : RecordTask) (sig : Int)
    (h : t.is_sig_ignored sig = true) : t.signal_has_user_handler sig = false := by
  unfold RecordTask.is_sig_ignored at h
  unfold RecordTask.signal_has_user_handler
  by_cases hu : is_unstoppable_signal sig = true
  · rw [if_pos hu] at h
    exact absurd h (by simp)
  · rw [if_neg hu] at h
    rcases hd : (t.sighandlers sig).disposition with _ | _ | _
    · simp [hd]
    · simp [hd]
    · simp only [hd] at h
      exact absurd h (by simp)

/-- The fatality condition as the specification words it: the thread group
already received a sigframe SIGSEGV, or the default action is dump-core or
terminate, the signal is not ignored (a deterministic occurrence counts as
not ignorable), and there is no user handler. -/
def fatal_claimed (t : RecordTask) (sig : Int) (det : SignalDeterministic) : Prop :=
  t.received_sigframe_sigsegv = true ∨
    ((default_action sig = SignalAction.SigActDumpCore ∨
        default_action sig = SignalAction.SigActTerminate) ∧
      ¬ (t.is_sig_ignored sig = true ∧ det = SignalDeterministic.NondeterministicSig) ∧
      t.signal_has_user_handler sig = false)

/-- The source's boolean fatality test agrees with the specification's
condition. -/
theorem is_fatal_signal_iff (t : RecordTask) (sig : Int) (det : SignalDeterministic) :
    t.is_fatal_signal sig det = true ↔ fatal_claimed t sig det := by
  unfold RecordTask.is_fatal_signal fatal_claimed
  by_cases hsf : t.received_sigframe_sigsegv = true
  · simp [hsf]
  · rw [if_neg (by simpa using hsf)]
    simp only [hsf, false_or]
    by_cases hdc : default_action sig = SignalAction.SigActDumpCore
    · rw [if_neg (by simp [hdc])]
      by_cases hig : t.is_sig_ignored sig = true
      · rw [if_pos hig]
        have hnh := is_sig_ignored_no_handler t sig hig
        cases det <;> simp [hig, hnh, hdc]
      · rw [if_neg hig]
        simp [hig, hdc]
    · by_cases hterm : default_action sig = SignalAction.SigActTerminate
      · rw [if_neg (by simp [hterm])]
        by_cases hig : t.is_sig_ignored sig = true
        · rw [if_pos hig]
          have hnh := is_sig_ignored_no_handler t sig hig
          cases det <;> simp [hig, hnh, hterm]
        · rw [if_neg hig]
          simp [hig, hterm]
      · rw [if_pos (by simp [hdc, hterm])]
        simp [hdc, hterm]

/-- C4: `sig_resolved_disposition` returns Fatal exactly under the
specification's fatality condition; UserHandler exactly when not fatal, a
user handler exists and the signal is not currently blocked; and Ignored
otherwise. -/
theorem C4_sig_resolved_disposition_iff (t : RecordTask) (env : SigmaskEnv)
    (sig : Int) (det : SignalDeterministic) :
    (t.sig_resolved_disposition env sig det =
        SignalResolvedDisposition.DispositionFatal ↔ fatal_claimed t sig det) ∧
      (t.sig_resolved_disposition env sig det =
          SignalResolvedDisposition.DispositionUserHandler ↔
        (¬ fatal_claimed t sig det ∧ t.signal_has_user_handler sig = true ∧
          t.is_sig_blocked env sig = false)) ∧
      (t.sig_resolved_disposition env sig det =
          SignalResolvedDisposition.DispositionIgnored ↔
        (¬ fatal_claimed t sig det ∧
          ¬ (t.signal_has_user_handler sig = true ∧
            t.is_sig_blocked env sig = false))) := by
  unfold RecordTask.sig_resolved_disposition
  by_cases hf : t.is_fatal_signal sig det = true
  · have hfc : fatal_claimed t sig det := (is_fatal_signal_iff t sig det).mp hf
    rw [if_pos hf]
    refine ⟨by simp [hfc], by simp [hfc], by simp [hfc]⟩
  · have hfc : ¬ fatal_claimed t sig det := fun hc =>
      hf ((is_fatal_signal_iff t sig det).mpr hc)
    rw [if_neg hf]
    by_cases hh : (t.signal_has_user_handler sig && !t.is_sig_blocked env sig) = true
    · rw [if_pos hh]
      rw [Bool.and_eq_true, Bool.not_eq_true'] at hh
      refine ⟨by simp [hfc], by simp [hfc, hh.1, hh.2], by simp [hfc, hh.1, hh.2]⟩
    · rw [if_neg hh]
      have hnb : ¬ (t.signal_has_user_handler sig = true ∧
          t.is_sig_blocked env sig = false) := by
        intro hx
        exact hh (by rw [hx.1, hx.2]; rfl)
      refine ⟨by simp [hfc], ?_, ?_⟩
      · constructor
        · intro hcon
          exact absurd hcon (by simp)
        · intro hcon
          exact (hnb ⟨hcon.2.1, hcon.2.2⟩).elim
      · exact ⟨fun _ => ⟨hfc, hnb⟩, fun _ => rfl⟩

/-- A thread group that already received a sigframe SIGSEGV. -/
def taskC4 : RecordTask :=
  { received_sigframe_sigsegv := true }

/-- Witness for C4: with the sigframe-SIGSEGV flag set every signal
resolves to Fatal; here SIGUSR1. -/
theorem C4_witness :
    taskC4.sig_resolved_disposition { ptrace_getsigmask := none, proc_sigblk := 0 }
      SIGUSR1_VAL SignalDeterministic.DeterministicSig =
      SignalResolvedDisposition.DispositionFatal :=
  (C4_sig_resolved_disposition_iff taskC4
    { ptrace_getsigmask := none, proc_sigblk := 0 } SIGUSR1_VAL
    SignalDeterministic.DeterministicSig).1.mpr (Or.inl rfl)

/-- C8: for the implicit-offset syscalls (write, writev, on either
architecture) the retrieved offset is exactly the fdinfo position minus
the number of bytes the syscall reported writing, and it is absent exactly
when the position is below that count; for the explicit-offset syscalls
(pwrite64, pwritev, pread64, preadv) on a 32-bit tracee the offset is the
64-bit word whose low half is arg4 and high half is arg5 (the bitwise OR
of disjoint ranges, written here as addition), reported as absent exactly
when that word is negative as a signed integer, i.e. when bit 31 of arg5
is set. -/
theorem C8_retrieve_offset (arch : SupportedArch) (regs : Registers) (pos : Nat) :
    (∀ sno, (sno = (archSyscalls arch).WRITE ∨ sno = (archSyscalls arch).WRITEV) →
      ∀ off, (retrieve_offset_arch (archSyscalls arch) sno regs pos = some off ↔
        (regs.syscall_result ≤ pos ∧ off + regs.syscall_result = pos))) ∧
      (∀ sno, (sno = x86Arch.PWRITE64 ∨ sno = x86Arch.PWRITEV ∨
          sno = x86Arch.PREAD64 ∨ sno = x86Arch.PREADV) →
        retrieve_offset_arch x86Arch sno regs pos =
          (if regs.arg5 % 2 ^ 32 < 2 ^ 31 then
            some (regs.arg4 % 2 ^ 32 + regs.arg5 % 2 ^ 32 * 2 ^ 32)
          else
            none)) := by
  constructor
  · intro sno hsno off
    have himpl : retrieve_offset_arch (archSyscalls arch) sno regs pos =
        (if pos < regs.syscall_result then none
         else some (pos - regs.syscall_result)) := by
      unfold retrieve_offset_arch
      cases arch <;> rcases hsno with rfl | rfl <;>
        simp [archSyscalls, x86Arch, x64Arch]
    rw [himpl]
    by_cases hlt : pos < regs.syscall_result
    · rw [if_pos hlt]
      constructor
      · intro hcon
        exact absurd hcon (by simp)
      · intro hcon
        omega
    · rw [if_neg hlt]
      constructor
      · intro hoff
        have : pos - regs.syscall_result = off := Option.some.inj hoff
        omega
      · intro hcon
        have : pos - regs.syscall_result = off := by omega
        rw [this]
  · intro sno hsno
    have hexp : retrieve_offset_arch x86Arch sno regs pos =
        (if toSigned64 (regs.arg4 % 2 ^ 32 + regs.arg5 % 2 ^ 32 * 2 ^ 32) < 0 then
          none
         else
          some (toSigned64 (regs.arg4 % 2 ^ 32 + regs.arg5 % 2 ^ 32 * 2 ^ 32)).toNat) := by
      unfold retrieve_offset_arch
      rcases hsno with rfl | rfl | rfl | rfl <;> simp [x86Arch]
    rw [hexp]
    have hv : (regs.arg4 % 2 ^ 32 + regs.arg5 % 2 ^ 32 * 2 ^ 32) % 2 ^ 64 =
        regs.arg4 % 2 ^ 32 + regs.arg5 % 2 ^ 32 * 2 ^ 32 :=
      Nat.mod_eq_of_lt (by omega)
    by_cases hbit : regs.arg5 % 2 ^ 32 < 2 ^ 31
    · have hsmall : regs.arg4 % 2 ^ 32 + regs.arg5 % 2 ^ 32 * 2 ^ 32 < 2 ^ 63 := by
        omega
      have hts : toSigned64 (regs.arg4 % 2 ^ 32 + regs.arg5 % 2 ^ 32 * 2 ^ 32) =
          ((regs.arg4 % 2 ^ 32 + regs.arg5 % 2 ^ 32 * 2 ^ 32 : Nat) : Int) := by
        unfold toSigned64
        rw [hv, if_pos hsmall]
      rw [hts, if_pos hbit, if_neg (not_lt.mpr (Int.natCast_nonneg _))]
      simp only [Option.some.injEq]
      omega
    · have hts : toSigned64 (regs.arg4 % 2 ^ 32 + regs.arg5 % 2 ^ 32 * 2 ^ 32) =
          ((regs.arg4 % 2 ^ 32 + regs.arg5 % 2 ^ 32 * 2 ^ 32 : Nat) : Int) - 2 ^ 64 := by
        unfold toSigned64
        rw [hv, if_neg (by omega)]
      rw [hts, if_neg hbit, if_pos (by
        have hlt : (regs.arg4 % 2 ^ 32 + regs.arg5 % 2 ^ 32 * 2 ^ 32 : Nat) < 2 ^ 64 := by
          omega
        omega)]

/-- Witness for C8: the spec's example (fdinfo position 42 after writing
17 bytes gives offset 25) and a 32-bit pwrite64 offset reassembly. -/
theorem C8_witness :
    retrieve_offset_arch x64Arch 1 { syscall_result := 17 } 42 = some 25 ∧
      retrieve_offset_arch x86Arch 181 { arg4 := 7, arg5 := 3 } 0 =
        some (7 + 3 * 2 ^ 32) := by
  constructor
  · exact ((C8_retrieve_offset SupportedArch.x64 { syscall_result := 17 } 42).1 1
      (Or.inl rfl) 25).mpr (by decide)
  · have h := (C8_retrieve_offset SupportedArch.x86 { arg4 := 7, arg5 := 3 } 0).2 181
      (Or.inl rfl)
    rw [h, if_pos (by decide)]
    decide

/-- Fields a checked pop never touches. -/
theorem pop_event_fields (t : RecordTask) (ty : EventType) (t2 : RecordTask)
    (h : t.pop_event ty = some t2) :
    t2.stashed_signals = t.stashed_signals ∧ t2.written_regs = t.written_regs ∧
      t2.regs = t.regs := by
  unfold RecordTask.pop_event at h
  rcases hl : t.pending_events.getLast? with _ | e
  · rw [hl] at h
    exact absurd h (by simp)
  · rw [hl, Option.some_bind] at h
    by_cases heq : (e.event_type == ty) = true
    · rw [if_pos heq] at h
      obtain rfl := Option.some.inj h
      exact ⟨rfl, rfl, rfl⟩
    · rw [if_neg heq] at h
      exact absurd h (by simp)

/-- Fields the reconciliation step never touches. -/
theorem seccomp_reconcile_fields (t : RecordTask) (no : Int) (p : RecordTask × Bool)
    (h : seccomp_reconcile_pushed_event t no = some p) :
    p.1.stashed_signals = t.stashed_signals ∧ p.1.written_regs = t.written_regs ∧
      p.1.regs = t.regs := by
  simp only [seccomp_reconcile_pushed_event, rec_abort_prepared_syscall] at h
  by_cases h1 : t.ev.is_syscall_event = true
  · rw [if_pos h1] at h
    rcases hd : t.ev.syscallData? with _ | d
    · rw [hd] at h
      exact absurd h (by simp)
    · rw [hd, Option.some_bind] at h
      by_cases h2 : (d.number != no) = true
      · rw [if_pos h2] at h
        exact absurd h (by simp)
      · rw [if_neg h2] at h
        by_cases h3 : (t.ev.event_type == EventType.EvSyscallInterruption) = true
        · rw [if_pos h3] at h
          rcases Option.map_eq_some'.mp h with ⟨t3, hpop, hp⟩
          obtain ⟨hs, hw, hr⟩ := pop_event_fields _ _ _ hpop
          rw [← hp]
          exact ⟨hs, hw, hr⟩
        · rw [if_neg h3] at h
          rcases Option.map_eq_some'.mp h with ⟨t3, hpop, hp⟩
          obtain ⟨hs, hw, hr⟩ := pop_event_fields _ _ _ hpop
          rw [← hp]
          exact ⟨hs, hw, hr⟩
  · rw [if_neg h1] at h
    obtain rfl := Option.some.inj h
    exact ⟨rfl, rfl, rfl⟩

/-- Fields the untraced-syscall setup never touches. -/
theorem seccomp_untraced_push_fields (t : RecordTask) (b : Bool) (t2 : RecordTask)
    (h : seccomp_untraced_push t b = some t2) :
    t2.stashed_signals = t.stashed_signals ∧ t2.written_regs = t.written_regs ∧
      t2.regs = t.regs := by
  unfold seccomp_untraced_push at h
  by_cases hb : b = true
  · rw [if_pos hb] at h
    by_cases hd : t.delay_syscallbuf_reset_for_seccomp_trap = true
    · rw [if_pos hd] at h
      exact absurd h (by simp)
    · rw [if_neg hd] at h
      obtain rfl := Option.some.inj h
      exact ⟨rfl, rfl, rfl⟩
  · rw [if_neg hb] at h
    obtain rfl := Option.some.inj h
    exact ⟨rfl, rfl, rfl⟩

/-- Fields a top-of-stack event-payload rewrite never touches. -/
theorem modify_top_syscall_fields (t : RecordTask) (f : SyscallEventData → SyscallEventData) :
    (t.modify_top_syscall f).stashed_signals = t.stashed_signals ∧
      (t.modify_top_syscall f).written_regs = t.written_regs ∧
      (t.modify_top_syscall f).regs = t.regs := by
  unfold RecordTask.modify_top_syscall
  split
  · exact ⟨rfl, rfl, rfl⟩
  · exact ⟨rfl, rfl, rfl⟩
  · exact ⟨rfl, rfl, rfl⟩

/-- Fields writing a frame never touches. -/
theorem record_current_event_fields (t : RecordTask) :
    (t.record_current_event).stashed_signals = t.stashed_signals ∧
      (t.record_current_event).written_regs = t.written_regs ∧
      (t.record_current_event).regs = t.regs := by
  obtain ⟨-, -, hs, hr, hw, -⟩ := maybe_flush_syscallbuf_fields t
  exact ⟨hs, hw, hr⟩

/-- Stashing a synthetic signal with a fresh signal number inserts it at
the front of the queue and touches neither the registers nor the write
log. -/
theorem stash_synthetic_sig_fields (t : RecordTask) (si : SigInfo)
    (det : SignalDeterministic)
    (hno : ∀ e ∈ t.stashed_signals, e.siginfo.si_signo ≠ si.si_signo) :
    (t.stash_synthetic_sig si det).stashed_signals = ⟨si, det⟩ :: t.stashed_signals ∧
      (t.stash_synthetic_sig si det).written_regs = t.written_regs ∧
      (t.stash_synthetic_sig si det).regs = t.regs := by
  simp only [RecordTask.stash_synthetic_sig]
  by_cases hlt : si.si_signo < SIGRTMIN_VAL
  · rw [if_pos (decide_eq_true hlt), stashCoalesce_of_not_mem si det _ hno]
    exact ⟨rfl, rfl, rfl⟩
  · rw [if_neg (by simpa using hlt)]
    exact ⟨rfl, rfl, rfl⟩

/-- Restoring the saved syscall arguments preserves the stash queue and
only appends register sets that keep the current original-syscallno. -/
theorem maybe_restore_fields (t : RecordTask) (params : Option OrigSyscallParams) :
    (t.maybe_restore_original_syscall_registers params).stashed_signals =
        t.stashed_signals ∧
      (∀ r ∈ (t.maybe_restore_original_syscall_registers params).written_regs,
        r ∈ t.written_regs ∨ r.original_syscallno = t.regs.original_syscallno) := by
  rcases params with _ | args
  · simp only [RecordTask.maybe_restore_original_syscall_registers]
    exact ⟨trivial, fun r hr => Or.inl hr⟩
  · simp only [RecordTask.maybe_restore_original_syscall_registers]
    by_cases hno : (args.no != t.regs.syscallno) = true
    · rw [if_pos hno]
      exact ⟨rfl, fun r hr => Or.inl hr⟩
    · rw [if_neg hno]
      refine ⟨rfl, fun r hr => ?_⟩
      unfold RecordTask.set_regs at hr
      rcases List.mem_append.mp hr with hmem | hmem
      · exact Or.inl hmem
      · right
        have hr' : r = { t.regs with
            arg1 := args.arg1, arg2 := args.arg2, arg3 := args.arg3,
            arg4 := args.arg4, arg5 := args.arg5, arg6 := args.arg6 } := by
          simpa using hmem
        rw [hr']

/-- Fields the untraced-syscall finish never touches. -/
theorem seccomp_untraced_finish_fields (t : RecordTask) (env : SeccompEnv)
    (t2 : RecordTask) (h : seccomp_untraced_finish t env = some t2) :
    t2.stashed_signals = t.stashed_signals ∧ t2.written_regs = t.written_regs := by
  simp only [seccomp_untraced_finish] at h
  by_cases hb : env.in_untraced_syscall = true
  · rw [if_pos hb] at h
    rcases Option.map_eq_some'.mp h with ⟨t3, hpop, ht⟩
    obtain ⟨hs3, hw3, -⟩ := pop_event_fields _ _ _ hpop
    obtain ⟨hsm, hwm, -⟩ := modify_top_syscall_fields t
      (fun d => { d with state := SyscallState.ExitingSyscall })
    obtain ⟨hsr, hwr, -⟩ := record_current_event_fields
      (t.modify_top_syscall (fun d => { d with state := SyscallState.ExitingSyscall }))
    rw [← ht]
    constructor
    · show t3.stashed_signals = t.stashed_signals
      rw [hs3, hsr, hsm]
    · show t3.written_regs = t.written_regs
      rw [hw3, hwr, hwm]
  · rw [if_neg hb] at h
    obtain rfl := Option.some.inj h
    exact ⟨rfl, rfl⟩

/-- The push-stash-restore stage: the synthetic SIGSYS built from the
seccomp data lands at the front of the stash queue, and the only register
sets appended to the write log keep `r1`'s original-syscallno. -/
theorem seccomp_push_stash_restore_fields (tp : RecordTask) (env : SeccompEnv)
    (seccomp_data : Nat) (syscallno : Int) (r1 : Registers) (already : Bool)
    (hno : ∀ e ∈ tp.stashed_signals, e.siginfo.si_signo ≠ SIGSYS_VAL) :
    (∃ call_addr,
      (seccomp_push_stash_restore tp env seccomp_data syscallno r1 already).stashed_signals =
        ⟨{ si_signo := SIGSYS_VAL
           si_errno := (seccomp_data : Int)
           si_code := SYS_SECCOMP
           sigsys_arch :=
             match r1.arch with
             | SupportedArch.x86 => AUDIT_ARCH_I386
             | SupportedArch.x64 => AUDIT_ARCH_X86_64
           sigsys_syscall := syscallno
           sigsys_call_addr := call_addr },
          SignalDeterministic.DeterministicSig⟩ :: tp.stashed_signals) ∧
      (∀ r ∈ (seccomp_push_stash_restore tp env seccomp_data syscallno r1
          already).written_regs,
        r ∈ tp.written_regs ∨
          r.original_syscallno = r1.original_syscallno) := by
  simp only [seccomp_push_stash_restore, note_entering_syscall]
  -- name the state reached before the stash
  obtain ⟨hsm1, hwm1, hrm1⟩ := modify_top_syscall_fields
    (tp.push_syscall_event syscallno env.syscall_arch)
    (fun d => { d with failed_during_preparation := true })
  obtain ⟨hsm2, hwm2, hrm2⟩ := modify_top_syscall_fields
    ((tp.push_syscall_event syscallno env.syscall_arch).modify_top_syscall
      (fun d => { d with failed_during_preparation := true }))
    (fun d => { d with state := SyscallState.EnteringSyscall })
  have hps : (tp.push_syscall_event syscallno env.syscall_arch).stashed_signals =
      tp.stashed_signals := rfl
  have hpw : (tp.push_syscall_event syscallno env.syscall_arch).written_regs =
      tp.written_regs := rfl
  -- the optionally-recording state
  set tq2 := ((tp.push_syscall_event syscallno env.syscall_arch).modify_top_syscall
    (fun d => { d with failed_during_preparation := true })).modify_top_syscall
    (fun d => { d with state := SyscallState.EnteringSyscall }) with htq2
  obtain ⟨hsr, hwr, hrr⟩ := record_current_event_fields tq2
  set tq3 := if env.in_untraced_syscall && !already then tq2.record_current_event else tq2
    with htq3
  have hs3 : tq3.stashed_signals = tp.stashed_signals := by
    rw [htq3]
    split
    · rw [hsr, hsm2, hsm1, hps]
    · rw [hsm2, hsm1, hps]
  have hw3 : tq3.written_regs = tp.written_regs := by
    rw [htq3]
    split
    · rw [hwr, hwm2, hwm1, hpw]
    · rw [hwm2, hwm1, hpw]
  obtain ⟨hst, hwt, hrt⟩ := stash_synthetic_sig_fields tq3
    { si_signo := SIGSYS_VAL
      si_errno := (seccomp_data : Int)
      si_code := SYS_SECCOMP
      sigsys_arch :=
        match r1.arch with
        | SupportedArch.x86 => AUDIT_ARCH_I386
        | SupportedArch.x64 => AUDIT_ARCH_X86_64
      sigsys_syscall := syscallno
      sigsys_call_addr := tq3.regs.ip }
    SignalDeterministic.DeterministicSig
    (by rw [hs3]; exact hno)
  set tq4 := tq3.stash_synthetic_sig
    { si_signo := SIGSYS_VAL
      si_errno := (seccomp_data : Int)
      si_code := SYS_SECCOMP
      sigsys_arch :=
        match r1.arch with
        | SupportedArch.x86 => AUDIT_ARCH_I386
        | SupportedArch.x64 => AUDIT_ARCH_X86_64
      sigsys_syscall := syscallno
      sigsys_call_addr := tq3.regs.ip }
    SignalDeterministic.DeterministicSig with htq4
  obtain ⟨hsf, hwf⟩ := maybe_restore_fields
    (tq4.set_regs { r1 with syscallno := syscallno }) env.orig_syscall_params
  constructor
  · refine ⟨tq3.regs.ip, ?_⟩
    rw [hsf]
    show tq4.stashed_signals = _
    rw [hst, hs3]
  · intro r hr
    rcases hwf r hr with hmem | horig
    · have hmem' : r ∈ tq4.written_regs ++ [{ r1 with syscallno := syscallno }] := hmem
      rcases List.mem_append.mp hmem' with hmem2 | hmem2
      · rw [hwt, hw3] at hmem2
        exact Or.inl hmem2
      · right
        have hr' : r = { r1 with syscallno := syscallno } := by simpa using hmem2
        rw [hr']
    · right
      have : ({ r1 with syscallno := syscallno } : Registers).original_syscallno =
          r1.original_syscallno := rfl
      rw [← this]
      exact horig

/-- C2: `handle_seccomp_trap` pushes only register sets whose
original-syscallno is the seccomp magic-skip number into the tracee, and
stashes (at the front of the queue) a synthetic deterministic SIGSYS whose
siginfo carries si_signo = SIGSYS, si_code = SYS_SECCOMP, si_errno = the
seccomp filter data, _sigsys._syscall = the intercepted original syscall
number, and _sigsys._arch = AUDIT_ARCH_X86_64 for an x86_64 tracee
(AUDIT_ARCH_I386 for an x86 tracee). -/
theorem C2_handle_seccomp_trap (t : RecordTask) (env : SeccompEnv)
    (seccomp_data : Nat) (t2 : RecordTask) (c : ContinueType)
    (hclean : t.written_regs = [])
    (hno : ∀ e ∈ t.stashed_signals, e.siginfo.si_signo ≠ SIGSYS_VAL)
    (h : handle_seccomp_trap t env seccomp_data = some (t2, c)) :
    (∀ r ∈ t2.written_regs,
        r.original_syscallno = SECCOMP_MAGIC_SKIP_ORIGINAL_SYSCALLNO) ∧
      (∃ st, t2.stashed_signals.head? = some st ∧
        st.deterministic = SignalDeterministic.DeterministicSig ∧
        st.siginfo.si_signo = SIGSYS_VAL ∧
        st.siginfo.si_code = SYS_SECCOMP ∧
        st.siginfo.si_errno = (seccomp_data : Int) ∧
        st.siginfo.sigsys_syscall = t.regs.original_syscallno ∧
        st.siginfo.sigsys_arch =
          (match env.syscall_arch with
           | SupportedArch.x86 => AUDIT_ARCH_I386
           | SupportedArch.x64 => AUDIT_ARCH_X86_64)) := by
  simp only [handle_seccomp_trap] at h
  rcases Option.bind_eq_some.mp h with ⟨step1, h1, h⟩
  rcases Option.bind_eq_some.mp h with ⟨tp, h2, h⟩
  rcases Option.map_eq_some'.mp h with ⟨t4, h3, h4⟩
  have h4' : (t4, ContinueType.DontContinue) = (t2, c) := h4
  have ht4 : t4 = t2 := (Prod.mk.inj h4').1
  obtain ⟨hs1, hw1, hr1⟩ := seccomp_reconcile_fields _ _ _ h1
  obtain ⟨hs2, hw2, hr2⟩ := seccomp_untraced_push_fields _ _ _ h2
  obtain ⟨⟨call_addr, hstash⟩, hwrites⟩ := seccomp_push_stash_restore_fields tp env
    seccomp_data (t.canonicalize_regs env.syscall_arch).regs.original_syscallno
    { (t.canonicalize_regs env.syscall_arch).regs with
      original_syscallno := SECCOMP_MAGIC_SKIP_ORIGINAL_SYSCALLNO }
    step1.2
    (by
      rw [hs2, hs1]
      exact hno)
  obtain ⟨hsfin, hwfin⟩ := seccomp_untraced_finish_fields _ env _ h3
  constructor
  · intro r hr
    rw [← ht4, hwfin] at hr
    rcases hwrites r hr with hmem | horig
    · rw [hw2, hw1] at hmem
      have hmem' : r ∈ t.written_regs ++
          [{ (t.canonicalize_regs env.syscall_arch).regs with
             original_syscallno := SECCOMP_MAGIC_SKIP_ORIGINAL_SYSCALLNO }] := hmem
      rw [hclean] at hmem'
      have hr' : r = { (t.canonicalize_regs env.syscall_arch).regs with
          original_syscallno := SECCOMP_MAGIC_SKIP_ORIGINAL_SYSCALLNO } := by
        simpa using hmem'
      rw [hr']
    · exact horig
  · have hhead : t2.stashed_signals.head? = some
        ⟨{ si_signo := SIGSYS_VAL
           si_errno := (seccomp_data : Int)
           si_code := SYS_SECCOMP
           sigsys_arch :=
             match ({ (t.canonicalize_regs env.syscall_arch).regs with
               original_syscallno :=
                 SECCOMP_MAGIC_SKIP_ORIGINAL_SYSCALLNO } : Registers).arch with
             | SupportedArch.x86 => AUDIT_ARCH_I386
             | SupportedArch.x64 => AUDIT_ARCH_X86_64
           sigsys_syscall :=
             (t.canonicalize_regs env.syscall_arch).regs.original_syscallno
           sigsys_call_addr := call_addr },
          SignalDeterministic.DeterministicSig⟩ := by
      rw [← ht4, hsfin, hstash]
      rfl
    exact ⟨_, hhead, rfl, rfl, rfl, rfl, rfl, rfl⟩

/-- A task at a seccomp stop for (traced) syscall 41. -/
def taskC2 : RecordTask :=
  { pending_events := [Event.sentinel],
    regs := { original_syscallno := 41, syscallno := 41, ip := 100 } }

/-- The observation environment for `taskC2`: an x86_64 tracee outside
the syscallbuf. -/
def envC2 : SeccompEnv :=
  { syscall_arch := SupportedArch.x64, in_untraced_syscall := false }

/-- Witness for C2 at the concrete seccomp stop: every pushed register
set carries the magic number and the queue head is the synthetic SIGSYS
with filter data 7 and the x86_64 audit architecture. -/
theorem C2_witness :
    ∃ p, handle_seccomp_trap taskC2 envC2 7 = some p ∧
      (∀ r ∈ p.1.written_regs,
        r.original_syscallno = SECCOMP_MAGIC_SKIP_ORIGINAL_SYSCALLNO) ∧
      ∃ st, p.1.stashed_signals.head? = some st ∧
        st.siginfo.si_signo = SIGSYS_VAL ∧ st.siginfo.si_errno = 7 ∧
        st.siginfo.sigsys_syscall = 41 ∧
        st.siginfo.sigsys_arch = AUDIT_ARCH_X86_64 := by
  rcases hp : handle_seccomp_trap taskC2 envC2 7 with _ | p
  · have hsome : (handle_seccomp_trap taskC2 envC2 7).isSome = true := rfl
    rw [hp] at hsome
    exact absurd hsome (by simp)
  · obtain ⟨hw, st, hsthead, hdet, hsigno, hcode, herr, hsys, harch⟩ :=
      C2_handle_seccomp_trap taskC2 envC2 7 p.1 p.2 rfl
        (by intro e he; simp [taskC2] at he) hp
    exact ⟨p, rfl, hw, st, hsthead, hsigno, herr, hsys, harch⟩

end Rd
